import Mathlib

/-!
Verification development for the alert pipeline core of the
predictive-maintenance backend (Python sources under `backend/`).

Numbers that the Python code handles as floats are embedded as rationals
(`ℚ`); timestamps are rationals counting seconds.  Python `round(x, k)`
(round half to even) is embedded exactly as `pyRound k x`.
-/

namespace PM

/-- Clamp a rational to the interval `[0, 1]` (Python `min(1, max(0, x))`). -/
def clamp01 (x : ℚ) : ℚ := min 1 (max 0 x)

/-- Round half to even to the nearest integer, as Python `round` does. -/
def roundHE (q : ℚ) : ℤ :=
  if q - ((⌊q⌋ : ℤ) : ℚ) < 1/2 then ⌊q⌋
  else if 1/2 < q - ((⌊q⌋ : ℤ) : ℚ) then ⌊q⌋ + 1
  else if ⌊q⌋ % 2 = 0 then ⌊q⌋ else ⌊q⌋ + 1

/-- Python `round(x, k)`: scale by `10^k`, round half to even, scale back. -/
def pyRound (k : ℕ) (x : ℚ) : ℚ := ((roundHE (x * (10 ^ k : ℚ))) : ℚ) / (10 ^ k : ℚ)

theorem roundHE_intCast (n : ℤ) : roundHE (n : ℚ) = n := by
  unfold roundHE
  simp

theorem roundHE_ge_floor (q : ℚ) : ⌊q⌋ ≤ roundHE q := by
  unfold roundHE
  split_ifs <;> omega

theorem roundHE_le_floor_add_one (q : ℚ) : roundHE q ≤ ⌊q⌋ + 1 := by
  unfold roundHE
  split_ifs <;> omega

theorem roundHE_mono {x y : ℚ} (h : x ≤ y) : roundHE x ≤ roundHE y := by
  rcases lt_or_eq_of_le (Int.floor_mono h : ⌊x⌋ ≤ ⌊y⌋) with hf | hf
  · calc roundHE x ≤ ⌊x⌋ + 1 := roundHE_le_floor_add_one x
      _ ≤ ⌊y⌋ := hf
      _ ≤ roundHE y := roundHE_ge_floor y
  · have hfr : x - ((⌊x⌋ : ℤ) : ℚ) ≤ y - ((⌊y⌋ : ℤ) : ℚ) := by
      rw [hf]; exact sub_le_sub_right h _
    unfold roundHE
    rw [hf] at hfr ⊢
    split_ifs <;> first | omega | linarith

theorem pyRound_mono (k : ℕ) {x y : ℚ} (h : x ≤ y) : pyRound k x ≤ pyRound k y := by
  unfold pyRound
  have hp : (0 : ℚ) < (10 ^ k : ℚ) := by positivity
  have h1 : x * (10 ^ k : ℚ) ≤ y * (10 ^ k : ℚ) :=
    mul_le_mul_of_nonneg_right h (le_of_lt hp)
  have h2 : ((roundHE (x * (10 ^ k : ℚ)) : ℤ) : ℚ) ≤ ((roundHE (y * (10 ^ k : ℚ)) : ℤ) : ℚ) := by
    exact_mod_cast roundHE_mono h1
  have hinv : (0 : ℚ) ≤ ((10 ^ k : ℚ))⁻¹ := by positivity
  rw [div_eq_mul_inv, div_eq_mul_inv]
  exact mul_le_mul_of_nonneg_right h2 hinv

theorem pyRound_fixed (k : ℕ) (n : ℤ) : pyRound k ((n : ℚ) / (10 ^ k : ℚ)) = (n : ℚ) / (10 ^ k : ℚ) := by
  unfold pyRound
  have hp : ((10 ^ k : ℚ)) ≠ 0 := by positivity
  rw [div_mul_cancel₀ _ hp, roundHE_intCast]

theorem pyRound_zero (k : ℕ) : pyRound k 0 = 0 := by
  have h := pyRound_fixed k 0
  simpa using h

theorem pyRound_one (k : ℕ) : pyRound k 1 = 1 := by
  have h := pyRound_fixed k (10 ^ k)
  have hp : ((10 ^ k : ℚ)) ≠ 0 := by positivity
  rw [show (((10 ^ k : ℤ) : ℚ)) = (10 ^ k : ℚ) by push_cast; ring, div_self hp] at h
  exact h

/-!
## Configuration constants (`config.py`, class `Config`)
-/

namespace Config

def MAX_RUL_HOURS : ℚ := 144
def MIN_RUL_HOURS : ℚ := 0
def EMA_ALPHA : ℚ := 1/10
def MIN_PREDICTION_INTERVAL_SECONDS : ℚ := 300
def RUL_CRITICAL_TRIGGER : ℚ := 24
def RUL_CRITICAL_CLEAR : ℚ := 28
def RUL_WARNING_TRIGGER : ℚ := 48
def RUL_WARNING_CLEAR : ℚ := 52
def HEALTH_CRITICAL_TRIGGER : ℚ := 30
def HEALTH_CRITICAL_CLEAR : ℚ := 35
def HEALTH_WARNING_TRIGGER : ℚ := 50
def HEALTH_WARNING_CLEAR : ℚ := 55
def ANOMALY_CRITICAL_SCORE : ℚ := 5
def MAX_ALERTS_PER_MACHINE_PER_MINUTE : ℕ := 3
def MULTI_SENSOR_REQUIRED_FOR_CRITICAL : Bool := true
def MIN_DEGRADED_SENSORS_FOR_CRITICAL : ℕ := 2
def MIN_RESOLUTION_NOTES_LENGTH : ℕ := 10
def MIN_ROOT_CAUSE_LENGTH : ℕ := 5

end Config

/-- The five alert types handled by `AlertManager.check_and_create_alerts`. -/
inductive AlertType where
  | criticalRul
  | warningRul
  | lowHealthCritical
  | lowHealthWarning
  | anomalyDetected
deriving DecidableEq, Repr

/-- Entry of `Config.PERSISTENCE_WINDOWS` (seconds the condition must persist). -/
def persistenceWindow : AlertType → ℚ
  | .criticalRul => 30
  | .warningRul => 60
  | .lowHealthCritical => 30
  | .lowHealthWarning => 60
  | .anomalyDetected => 45

/-- Per-alert-type sliding-window parameters (`Config.EVALUATION_WINDOWS`). -/
structure WindowConfig where
  duration_seconds : ℚ
  required_pct_above : ℚ
  require_worsening_trend : Bool
  risk_threshold : ℚ
deriving DecidableEq, Repr

/-- Entry of `Config.EVALUATION_WINDOWS` for each alert type. -/
def evaluationWindowConfig : AlertType → WindowConfig
  | .warningRul => ⟨60, 55/100, true, 4/10⟩
  | .criticalRul => ⟨45, 65/100, true, 6/10⟩
  | .lowHealthWarning => ⟨60, 55/100, true, 4/10⟩
  | .lowHealthCritical => ⟨45, 65/100, true, 6/10⟩
  | .anomalyDetected => ⟨90, 50/100, false, 3/10⟩

/-!
## Risk score (`evaluation_window.py`, `calculate_risk_score`)
-/

/-- Embedding of `calculate_risk_score(rul_hours, health_score, anomaly_score)`. -/
def calculateRiskScore (rul_hours health_score anomaly_score : ℚ) : ℚ :=
  let rul_risk := max 0 (min 1 (1 - rul_hours / Config.MAX_RUL_HOURS))
  let health_risk := max 0 (min 1 (1 - health_score / 100))
  let anomaly_risk := min 1 (anomaly_score / 10)
  let combined := rul_risk * (5/10) + health_risk * (35/100) + anomaly_risk * (15/100)
  pyRound 3 (min 1 (max 0 combined))

/-- The weighted sum the claim describes for the risk score:
`0.5·(1 − rul/MAX_RUL) + 0.35·(1 − health/100) + 0.15·min(1, anomaly/10)` with
the first two components clamped to `[0,1]`.  Stated from the spec wording so
it can be compared against `calculateRiskScore`, the embedding of the code. -/
def riskWeightedSumSpec (rul_hours health_score anomaly_score : ℚ) : ℚ :=
  (5/10) * clamp01 (1 - rul_hours / Config.MAX_RUL_HOURS)
    + (35/100) * clamp01 (1 - health_score / 100)
    + (15/100) * min 1 (anomaly_score / 10)

theorem clamp_comm (x : ℚ) : max 0 (min 1 x) = min 1 (max 0 x) := by
  rcases le_total x 0 with h | h <;> rcases le_total x 1 with h1 | h1 <;>
    simp [min_def, max_def] <;> split_ifs <;> linarith

/-- C9 counterexample: at `(rul, health, anomaly) = (1, 100, 1)` the returned
score is `0.512`, the rounding of the weighted sum `0.51152777…`, so the
function does not literally equal the clamped weighted sum. -/
theorem riskScore_ne_weightedSum_at_one :
    calculateRiskScore 1 100 1 ≠ riskWeightedSumSpec 1 100 1 := by
  norm_num [calculateRiskScore, riskWeightedSumSpec, clamp01, pyRound, roundHE,
    Config.MAX_RUL_HOURS]

/-- C9 (amended): `calculate_risk_score` is total and always returns a value in
`[0,1]`; for inputs in nominal ranges (`rul ∈ [0, MAX_RUL]`, `health ∈ [0,100]`,
`anomaly ∈ [0,10]`) it returns the claimed clamped weighted sum rounded half to
even to three decimal places. -/
theorem riskScore_bounded_and_eq_rounded_sum (rul_hours health_score anomaly_score : ℚ) :
    (0 ≤ calculateRiskScore rul_hours health_score anomaly_score ∧
      calculateRiskScore rul_hours health_score anomaly_score ≤ 1) ∧
    (0 ≤ rul_hours → rul_hours ≤ Config.MAX_RUL_HOURS →
      0 ≤ health_score → health_score ≤ 100 →
      0 ≤ anomaly_score → anomaly_score ≤ 10 →
      calculateRiskScore rul_hours health_score anomaly_score =
        pyRound 3 (riskWeightedSumSpec rul_hours health_score anomaly_score)) := by
  constructor
  · unfold calculateRiskScore
    set c := max 0 ((max 0 (min 1 (1 - rul_hours / Config.MAX_RUL_HOURS))) * (5/10)
      + (max 0 (min 1 (1 - health_score / 100))) * (35/100)
      + (min 1 (anomaly_score / 10)) * (15/100)) with hc
    have h0 : (0:ℚ) ≤ min 1 c := by
      have hcle : (0:ℚ) ≤ c := le_max_left _ _
      rcases le_total (1:ℚ) c with h | h <;> simp [min_def, h, hcle]
    have h1 : min 1 c ≤ 1 := min_le_left _ _
    constructor
    · have := pyRound_mono 3 h0
      rwa [pyRound_zero] at this
    · have := pyRound_mono 3 h1
      rwa [pyRound_one] at this
  · intro h1 h2 h3 h4 h5 h6
    unfold calculateRiskScore riskWeightedSumSpec
    dsimp only
    have hanom0 : (0:ℚ) ≤ min 1 (anomaly_score / 10) := by
      have hd : (0:ℚ) ≤ anomaly_score / 10 := by positivity
      exact le_min (by norm_num) hd
    have hr0 : (0:ℚ) ≤ max 0 (min 1 (1 - rul_hours / Config.MAX_RUL_HOURS)) := le_max_left _ _
    have hr1 : max 0 (min 1 (1 - rul_hours / Config.MAX_RUL_HOURS)) ≤ 1 := by
      have hm : min 1 (1 - rul_hours / Config.MAX_RUL_HOURS) ≤ 1 := min_le_left _ _
      simp only [max_le_iff]
      constructor <;> [norm_num; exact hm]
    have hh0 : (0:ℚ) ≤ max 0 (min 1 (1 - health_score / 100)) := le_max_left _ _
    have hh1 : max 0 (min 1 (1 - health_score / 100)) ≤ 1 := by
      have hm : min 1 (1 - health_score / 100) ≤ 1 := min_le_left _ _
      simp only [max_le_iff]
      constructor <;> [norm_num; exact hm]
    have hanom1 : min 1 (anomaly_score / 10) ≤ 1 := min_le_left _ _
    have hcomb0 : (0:ℚ) ≤ (max 0 (min 1 (1 - rul_hours / Config.MAX_RUL_HOURS))) * (5/10)
        + (max 0 (min 1 (1 - health_score / 100))) * (35/100)
        + (min 1 (anomaly_score / 10)) * (15/100) := by positivity
    have hcomb1 : (max 0 (min 1 (1 - rul_hours / Config.MAX_RUL_HOURS))) * (5/10)
        + (max 0 (min 1 (1 - health_score / 100))) * (35/100)
        + (min 1 (anomaly_score / 10)) * (15/100) ≤ 1 := by nlinarith
    rw [max_eq_right hcomb0, min_eq_right hcomb1]
    congr 1
    unfold clamp01
    rw [clamp_comm, clamp_comm]
    ring

theorem pyRound_idem (k : ℕ) (x : ℚ) : pyRound k (pyRound k x) = pyRound k x :=
  pyRound_fixed k (roundHE (x * (10 ^ k : ℚ)))

/-!
## Sensor samples and the heuristic RUL model (`rul_predictor.py`)

`RULPredictor.predict_rul` always delegates to `_heuristic_rul` (the pickled
model path is bypassed in the source).  Sensor dictionaries are embedded as a
record of optional readings; `dict.get(key, default)` becomes `Option.getD`.
-/

structure SensorData where
  vibration_x : Option ℚ := none
  vibration_y : Option ℚ := none
  temperature : Option ℚ := none
  pressure : Option ℚ := none
  rpm : Option ℚ := none
deriving DecidableEq, Repr

/-- Vibration sub-score of `_heuristic_rul` as a function of `avg_vib`. -/
def vibScore (avg_vib : ℚ) : ℚ :=
  if avg_vib ≤ 65/100 then 100
  else if avg_vib ≤ 12/10 then 100 - ((avg_vib - 65/100) / (55/100)) * 20
  else if avg_vib ≤ 25/10 then 80 - ((avg_vib - 12/10) / (13/10)) * 50
  else max 0 (30 - ((avg_vib - 25/10) / 1) * 30)

/-- Temperature sub-score of `_heuristic_rul` (chiller / motor / pump ranges). -/
def tempScore (temp : ℚ) : ℚ :=
  if temp < 20 then
    (if temp ≤ 15/2 then 100
     else if temp ≤ 10 then 100 - ((temp - 15/2) / (5/2)) * 30
     else if temp ≤ 15 then 70 - ((temp - 10) / 5) * 50
     else max 0 (20 - ((temp - 15) / 5) * 20))
  else if temp > 60 then
    (if temp ≤ 72 then 100
     else if temp ≤ 85 then 100 - ((temp - 72) / 13) * 25
     else if temp ≤ 95 then 75 - ((temp - 85) / 10) * 45
     else max 0 (30 - ((temp - 95) / 10) * 30))
  else
    (if temp ≤ 52 then 100
     else if temp ≤ 70 then 100 - ((temp - 52) / 18) * 25
     else if temp ≤ 85 then 75 - ((temp - 70) / 15) * 45
     else max 0 (30 - ((temp - 85) / 15) * 30))

/-- RUL from health, the final piecewise map of `_heuristic_rul`. -/
def rulFromHealth (health_score : ℚ) : ℚ :=
  if health_score ≥ 70 then 72 + ((health_score - 70) / 30) * 72
  else if health_score ≥ 40 then 24 + ((health_score - 40) / 30) * 48
  else (health_score / 40) * 24

/-- Embedding of `RULPredictor._heuristic_rul`; returns `(rul_hours, health)`
both rounded as in the source (`round(rul, 1)`, `round(health, 2)`).  The
`pressure` reading is fetched by the source but unused. -/
def heuristicRul (s : SensorData) : ℚ × ℚ :=
  let vib_x := s.vibration_x.getD (1/2)
  let vib_y := s.vibration_y.getD (1/2)
  let temp := s.temperature.getD 70
  let avg_vib := (vib_x + vib_y) / 2
  let health_score := min 100 (max 0 (vibScore avg_vib * (6/10) + tempScore temp * (4/10)))
  (pyRound 1 (rulFromHealth health_score), pyRound 2 health_score)

theorem rulFromHealth_bounds (h : ℚ) (h0 : 0 ≤ h) (h1 : h ≤ 100) :
    0 ≤ rulFromHealth h ∧ rulFromHealth h ≤ 144 := by
  unfold rulFromHealth
  split_ifs with hc1 hc2 <;> constructor <;> linarith

theorem heuristicRul_rul_bounds (s : SensorData) :
    0 ≤ (heuristicRul s).1 ∧ (heuristicRul s).1 ≤ 144 := by
  unfold heuristicRul
  dsimp only
  set hs := min 100 (max 0 (vibScore ((s.vibration_x.getD (1/2) + s.vibration_y.getD (1/2)) / 2) * (6/10)
    + tempScore (s.temperature.getD 70) * (4/10))) with hhs
  have hs0 : (0:ℚ) ≤ hs := by
    rw [hhs]
    exact le_min (by norm_num) (le_max_left _ _)
  have hs1 : hs ≤ 100 := min_le_left _ _
  obtain ⟨hb0, hb1⟩ := rulFromHealth_bounds hs hs0 hs1
  constructor
  · have := pyRound_mono 1 hb0
    rwa [pyRound_zero] at this
  · have h144 : pyRound 1 (144 : ℚ) = 144 := by
      have h := pyRound_fixed 1 1440
      norm_num at h
      exact h
    have := pyRound_mono 1 hb1
    rwa [h144] at this

theorem heuristicRul_rul_round_fixed (s : SensorData) :
    pyRound 1 (heuristicRul s).1 = (heuristicRul s).1 := by
  unfold heuristicRul
  dsimp only
  exact pyRound_idem 1 _

/-!
## Stabilized RUL prediction (`ml_stabilizer.py`, `StabilizedRULPredictor`)

Per-machine state; `predict_rul` with `bypass_smoothing=False` applies rate
limiting, EMA smoothing and the monotonic-RUL clamp of
`_stabilize_prediction`.
-/

structure StabState where
  history : List (ℚ × ℚ × ℚ)
  last_prediction_time : Option ℚ
  stable_predictions : Option (ℚ × ℚ)
deriving DecidableEq, Repr

def initStabState : StabState := ⟨[], none, none⟩

/-- Embedding of `StabilizedRULPredictor._stabilize_prediction`. -/
def stabilizePrediction (st : StabState) (raw_rul raw_health now : ℚ) :
    (ℚ × ℚ) × StabState :=
  match st.history.getLast? with
  | none =>
      ((raw_rul, raw_health), { st with history := st.history ++ [(now, raw_rul, raw_health)] })
  | some (_, prev_rul, prev_health) =>
      let ema_rul := Config.EMA_ALPHA * raw_rul + (1 - Config.EMA_ALPHA) * prev_rul
      let ema_health := Config.EMA_ALPHA * raw_health + (1 - Config.EMA_ALPHA) * prev_health
      let stable_rul := min ema_rul prev_rul
      let stable_health := if ema_health > prev_health * (105/100) then prev_health else ema_health
      let stable_rul2 := max Config.MIN_RUL_HOURS (min stable_rul Config.MAX_RUL_HOURS)
      let stable_health2 := max 0 (min 100 stable_health)
      let hist2 := st.history ++ [(now, stable_rul2, stable_health2)]
      let hist3 := if hist2.length > 50 then hist2.drop 1 else hist2
      ((pyRound 1 stable_rul2, pyRound 2 stable_health2), { st with history := hist3 })

/-- Recompute path of `predict_rul`: raw model, stabilization, cache update. -/
def predictCompute (st : StabState) (sensor : SensorData) (now : ℚ) :
    (ℚ × ℚ) × StabState :=
  let raw := heuristicRul sensor
  let res := stabilizePrediction st raw.1 raw.2 now
  (res.1, { res.2 with stable_predictions := some res.1, last_prediction_time := some now })

/-- Embedding of `StabilizedRULPredictor.predict_rul` for one machine. -/
def predictRul (st : StabState) (sensor : SensorData) (now : ℚ) (bypass : Bool) :
    (ℚ × ℚ) × StabState :=
  if bypass then
    (heuristicRul sensor, initStabState)
  else
    match st.last_prediction_time with
    | some last =>
        if now - last < Config.MIN_PREDICTION_INTERVAL_SECONDS then
          match st.stable_predictions with
          | some cached => (cached, st)
          | none => predictCompute st sensor now
        else predictCompute st sensor now
    | none => predictCompute st sensor now

/-- Run a sequence of `predict_rul` calls with `bypass_smoothing = False`,
collecting the returned `rul_hours` values. -/
def runPredict (st : StabState) (inputs : List (ℚ × SensorData)) : StabState × List ℚ :=
  match inputs with
  | [] => (st, [])
  | (now, s) :: rest =>
      let r := predictRul st s now false
      let rec2 := runPredict r.2 rest
      (rec2.1, r.1.1 :: rec2.2)

/-- Invariant tying a stabilizer state to the last returned RUL value. -/
def StabInv (st : StabState) (r : ℚ) : Prop :=
  (∃ t rl hl, st.history.getLast? = some (t, rl, hl) ∧ 0 ≤ rl ∧ rl ≤ 144 ∧ r = pyRound 1 rl) ∧
  (∃ c, st.stable_predictions = some c ∧ c.1 = r)

theorem getLast?_cap (l : List (ℚ × ℚ × ℚ)) (a : ℚ × ℚ × ℚ) :
    (if (l ++ [a]).length > 50 then (l ++ [a]).drop 1 else l ++ [a]).getLast? = some a := by
  split
  · next h =>
      rw [List.length_append, List.length_singleton] at h
      rw [List.drop_append_of_le_length (by omega)]
      simp
  · simp

theorem predictCompute_step (st : StabState) (sensor : SensorData) (now : ℚ) (r : ℚ)
    (hInv : StabInv st r) :
    (predictCompute st sensor now).1.1 ≤ r ∧
      StabInv (predictCompute st sensor now).2 (predictCompute st sensor now).1.1 := by
  obtain ⟨⟨t, rl, hl, hlast, hrl0, hrl1, hr⟩, c, hc, hc1⟩ := hInv
  unfold predictCompute stabilizePrediction
  rw [hlast]
  dsimp only
  refine ⟨?_, ⟨⟨now, _, _, getLast?_cap _ _, ?_, ?_, rfl⟩, ⟨_, rfl, rfl⟩⟩⟩
  · rw [hr]
    apply pyRound_mono
    unfold Config.MIN_RUL_HOURS Config.MAX_RUL_HOURS
    exact max_le hrl0 (le_trans (min_le_left _ _) (min_le_right _ _))
  · unfold Config.MIN_RUL_HOURS
    exact le_max_left _ _
  · unfold Config.MIN_RUL_HOURS Config.MAX_RUL_HOURS
    exact max_le (by norm_num) (min_le_right _ _)

theorem predictRul_step (st : StabState) (sensor : SensorData) (now : ℚ) (r : ℚ)
    (hInv : StabInv st r) :
    (predictRul st sensor now false).1.1 ≤ r ∧
      StabInv (predictRul st sensor now false).2 (predictRul st sensor now false).1.1 := by
  obtain ⟨hhist, c, hc, hc1⟩ := hInv
  subst hc1
  unfold predictRul
  simp only [Bool.false_eq_true, if_false]
  cases hlt : st.last_prediction_time with
  | none => exact predictCompute_step st sensor now c.1 ⟨hhist, c, hc, rfl⟩
  | some last =>
      dsimp only
      split
      · rw [hc]
        exact ⟨le_refl _, ⟨hhist, c, hc, rfl⟩⟩
      · exact predictCompute_step st sensor now c.1 ⟨hhist, c, hc, rfl⟩

theorem predictCompute_init (sensor : SensorData) (now : ℚ) :
    StabInv (predictCompute initStabState sensor now).2
      (predictCompute initStabState sensor now).1.1 := by
  obtain ⟨hb0, hb1⟩ := heuristicRul_rul_bounds sensor
  have hnil : (initStabState.history).getLast? = (none : Option (ℚ × ℚ × ℚ)) := rfl
  unfold predictCompute stabilizePrediction
  rw [hnil]
  dsimp only
  exact ⟨⟨now, (heuristicRul sensor).1, (heuristicRul sensor).2, by simp [initStabState],
    hb0, hb1, (heuristicRul_rul_round_fixed sensor).symm⟩, _, rfl, rfl⟩

theorem runPredict_chain (inputs : List (ℚ × SensorData)) :
    ∀ st r, StabInv st r →
      List.Chain' (fun a b => b ≤ a) (r :: (runPredict st inputs).2) := by
  induction inputs with
  | nil => intro st r _; simp [runPredict]
  | cons p rest ih =>
      intro st r hInv
      obtain ⟨hle, hInv2⟩ := predictRul_step st p.2 p.1 r hInv
      have hrec := ih (predictRul st p.2 p.1 false).2 (predictRul st p.2 p.1 false).1.1 hInv2
      unfold runPredict
      exact List.Chain'.cons hle hrec

/-- C4: over any sequence of `predict_rul` calls with `bypass_smoothing=False`
and no `reset_machine`, the returned `rul_hours` values are non-increasing. -/
theorem stabilizer_rul_nonincreasing (inputs : List (ℚ × SensorData)) :
    List.Chain' (fun a b => b ≤ a) (runPredict initStabState inputs).2 := by
  cases inputs with
  | nil => simp [runPredict]
  | cons p rest =>
      unfold runPredict
      dsimp only
      have hInv1 : StabInv (predictRul initStabState p.2 p.1 false).2
          (predictRul initStabState p.2 p.1 false).1.1 := by
        unfold predictRul
        simp only [Bool.false_eq_true, if_false]
        exact predictCompute_init p.2 p.1
      exact runPredict_chain rest _ _ hInv1

/-!
## Evaluation windows (`evaluation_window.py`, `EvaluationWindow`)

The human-readable `reason` string is not modelled (pure float formatting);
all other fields of `WindowEvaluation` are.
-/

structure WindowSample where
  timestamp : ℚ
  risk_score : ℚ
  health_score : ℚ
  rul_hours : ℚ
  sensors : SensorData
deriving DecidableEq, Repr

structure EvaluationWindow where
  machine_id : String
  alert_type : AlertType
  config : WindowConfig
  samples : List WindowSample
deriving DecidableEq, Repr

structure WindowEvaluation where
  may_proceed : Bool
  mean_risk : ℚ
  risk_trend : ℚ
  pct_above_threshold : ℚ
  sample_count : ℕ
  window_duration_actual : ℚ
deriving DecidableEq, Repr

/-- Embedding of `_prune_old_samples`: keep samples with
`timestamp >= now - duration_seconds`. -/
def pruneSamples (samples : List WindowSample) (now dur : ℚ) : List WindowSample :=
  samples.filter (fun s => decide (now - dur ≤ s.timestamp))

/-- Embedding of `EvaluationWindow.add_sample` (append, then prune). -/
def windowAddSample (w : EvaluationWindow) (now risk health rul : ℚ)
    (sensors : SensorData) : EvaluationWindow :=
  { w with samples :=
      (pruneSamples (w.samples ++ [⟨now, risk, health, rul, sensors⟩]) now
        w.config.duration_seconds) }

def listSum (l : List ℚ) : ℚ := l.foldl (· + ·) 0

/-- Embedding of `EvaluationWindow._calculate_trend`: least-squares slope of
risk against seconds since the first sample, scaled to per-minute units, with
the `1e-10` denominator guard of the source. -/
def calculateTrend (timestamps : List ℚ) (values : List ℚ) : ℚ :=
  if values.length < 2 then 0
  else
    let t0 := timestamps.headI
    let x := timestamps.map (fun t => t - t0)
    if x.getLast?.getD 0 - x.headI < 1 then 0
    else
      let n : ℚ := (x.length : ℚ)
      let slope := (n * listSum (List.zipWith (· * ·) x values) - listSum x * listSum values) /
        (n * listSum (x.map (fun v => v * v)) - (listSum x) * (listSum x) + 1 / 10 ^ 10)
      slope * 60

/-- Samples surviving the prune step at evaluation time. -/
def windowPruned (w : EvaluationWindow) (now : ℚ) : List WindowSample :=
  pruneSamples w.samples now w.config.duration_seconds

/-- Arithmetic mean of the pruned risk scores (`np.mean(risks)`). -/
def windowMeanRisk (w : EvaluationWindow) (now : ℚ) : ℚ :=
  listSum ((windowPruned w now).map (fun s => s.risk_score)) /
    (((windowPruned w now).length : ℚ))

/-- Trend of the pruned risk scores. -/
def windowRiskTrend (w : EvaluationWindow) (now : ℚ) : ℚ :=
  calculateTrend ((windowPruned w now).map (fun s => s.timestamp))
    ((windowPruned w now).map (fun s => s.risk_score))

/-- Fraction of pruned samples with risk at or above the threshold. -/
def windowPctAbove (w : EvaluationWindow) (now : ℚ) : ℚ :=
  ((((windowPruned w now).map (fun s => s.risk_score)).filter
      (fun r => decide (w.config.risk_threshold ≤ r))).length : ℚ) /
    (((windowPruned w now).length : ℚ))

/-- Embedding of `EvaluationWindow.evaluate`. -/
def windowEvaluate (w : EvaluationWindow) (now : ℚ) : WindowEvaluation :=
  let samples := windowPruned w now
  if samples.length < 3 then
    ⟨false, 0, 0, 0, samples.length, 0⟩
  else
    let mean_risk := windowMeanRisk w now
    let risk_trend := windowRiskTrend w now
    let pct_above := windowPctAbove w now
    let ts := samples.map (fun s => s.timestamp)
    let duration_actual := ts.getLast?.getD 0 - ts.headI
    let condition_mean := decide (w.config.risk_threshold ≤ mean_risk)
    let condition_trend := (! w.config.require_worsening_trend) || decide (0 < risk_trend)
    let condition_pct := decide (w.config.required_pct_above ≤ pct_above)
    ⟨condition_mean && condition_trend && condition_pct,
      mean_risk, risk_trend, pct_above, samples.length, duration_actual⟩

theorem not_or_decide_iff (b : Bool) (p : Prop) [Decidable p] :
    (((! b) || decide p) = true) ↔ (b = false ∨ p) := by
  cases b <;> simp

/-- C5: `evaluate()` approves exactly when at least 3 samples survive pruning,
the mean risk reaches the threshold, the trend gate passes (disabled or
strictly positive trend), and the fraction of samples at or above the
threshold reaches `required_pct_above`; with fewer than 3 samples it never
approves. -/
theorem windowEvaluate_may_proceed_iff (w : EvaluationWindow) (now : ℚ) :
    (windowEvaluate w now).may_proceed = true ↔
      (3 ≤ (windowPruned w now).length ∧
        w.config.risk_threshold ≤ windowMeanRisk w now ∧
        (w.config.require_worsening_trend = false ∨ 0 < windowRiskTrend w now) ∧
        w.config.required_pct_above ≤ windowPctAbove w now) := by
  unfold windowEvaluate
  dsimp only
  split
  · next h =>
      constructor
      · intro hc; cases hc
      · rintro ⟨h3, -⟩; omega
  · next h =>
      push_neg at h
      constructor
      · intro hc
        rw [Bool.and_eq_true, Bool.and_eq_true] at hc
        obtain ⟨⟨hm, ht⟩, hp⟩ := hc
        refine ⟨by omega, of_decide_eq_true hm, ?_, of_decide_eq_true hp⟩
        exact (not_or_decide_iff _ _).1 ht
      · rintro ⟨h3, hm, ht, hp⟩
        rw [Bool.and_eq_true, Bool.and_eq_true]
        exact ⟨⟨decide_eq_true hm, (not_or_decide_iff _ _).2 ht⟩, decide_eq_true hp⟩

/-!
## Persistent store (`database.py`, class `Database`)

Alert and maintenance-log tables as lists of rows; each store call is one
transaction.  The opaque JSON `metadata` column is not modelled.
-/

inductive AlertState where
  | ACTIVE
  | ACKNOWLEDGED
  | IN_PROGRESS
  | RESOLVED
  | LOGGED
deriving DecidableEq, Repr

structure AlertRow where
  id : String
  machine_id : String
  alert_type : AlertType
  severity : String
  message : String
  created_at : ℚ
  state : AlertState
  acknowledged_by : Option String := none
  acknowledged_at : Option ℚ := none
  resolved_by : Option String := none
  resolved_at : Option ℚ := none
  resolution_notes : Option String := none
  root_cause : Option String := none
  downtime_minutes : Option ℤ := none
deriving DecidableEq, Repr

structure LogRow where
  id : String
  machine_id : String
  alert_id : String
  created_at : ℚ
  resolved_at : ℚ
  operator : String
  root_cause : String
  resolution_notes : String
  downtime_minutes : ℤ
  severity : String
  alert_type : AlertType
deriving DecidableEq, Repr

structure Store where
  alerts : List AlertRow
  logs : List LogRow
deriving DecidableEq, Repr

/-- States the source treats as a live alert (`'ACTIVE','ACKNOWLEDGED','IN_PROGRESS'`). -/
def isOpenState (s : AlertState) : Bool :=
  match s with
  | .ACTIVE => true
  | .ACKNOWLEDGED => true
  | .IN_PROGRESS => true
  | _ => false

/-- Number of rows the `check_duplicate_alert` query would count. -/
def openCount (db : Store) (machine : String) (atype : AlertType) : ℕ :=
  (db.alerts.filter (fun a =>
    decide (a.machine_id = machine ∧ a.alert_type = atype ∧ isOpenState a.state = true))).length

/-- Embedding of `Database.check_duplicate_alert` (`COUNT(*) > 0`). -/
def checkDuplicateAlert (db : Store) (machine : String) (atype : AlertType) : Bool :=
  decide (0 < openCount db machine atype)

/-- Embedding of `Database.create_alert`: insert a fresh row with state ACTIVE. -/
def dbCreateAlert (db : Store) (id machine : String) (atype : AlertType)
    (severity message : String) (created_at : ℚ) : Store :=
  { db with alerts := db.alerts ++
      [{ id := id, machine_id := machine, alert_type := atype, severity := severity,
         message := message, created_at := created_at, state := .ACTIVE }] }

/-- Embedding of `Database.get_alert` (`SELECT … WHERE id = ?`, first row). -/
def dbGetAlert (db : Store) (id : String) : Option AlertRow :=
  db.alerts.find? (fun a => decide (a.id = id))

/-- Embedding of `Database.acknowledge_alert`: conditional update guarded by
`state = 'ACTIVE'`; returns whether any row changed. -/
def dbAcknowledgeAlert (db : Store) (id operator_id : String) (now : ℚ) : Bool × Store :=
  let changed := 0 < (db.alerts.filter (fun a => decide (a.id = id ∧ a.state = .ACTIVE))).length
  (decide changed,
    { db with alerts := db.alerts.map (fun a =>
        if a.id = id ∧ a.state = .ACTIVE then
          { a with state := .ACKNOWLEDGED, acknowledged_by := some operator_id,
                   acknowledged_at := some now }
        else a) })

/-- Row transformer of the `UPDATE alerts … WHERE id = ? AND state IN
('ACKNOWLEDGED','IN_PROGRESS')` statement of `Database.resolve_alert`. -/
def resolveRowUpdate (id operator_id root_cause resolution_notes : String)
    (downtime : ℤ) (now : ℚ) (a : AlertRow) : AlertRow :=
  if a.id = id ∧ (a.state = .ACKNOWLEDGED ∨ a.state = .IN_PROGRESS) then
    { a with state := .RESOLVED, resolved_by := some operator_id,
             resolved_at := some now, resolution_notes := some resolution_notes,
             root_cause := some root_cause, downtime_minutes := some downtime }
  else a

/-- Maintenance-log row inserted by `Database.resolve_alert`. -/
def resolveLogRow (id operator_id root_cause resolution_notes : String)
    (downtime : ℤ) (now : ℚ) (alert : AlertRow) : LogRow :=
  { id := "LOG-" ++ id, machine_id := alert.machine_id, alert_id := id,
    created_at := alert.created_at, resolved_at := now, operator := operator_id,
    root_cause := root_cause, resolution_notes := resolution_notes,
    downtime_minutes := downtime, severity := alert.severity,
    alert_type := alert.alert_type }

/-- Embedding of `Database.resolve_alert`: select the row, update it guarded
by `state ∈ {ACKNOWLEDGED, IN_PROGRESS}`, and on success insert the
maintenance log `LOG-<alert_id>` in the same transaction. -/
def dbResolveAlert (db : Store) (id operator_id root_cause resolution_notes : String)
    (downtime : ℤ) (now : ℚ) : Bool × Store :=
  match dbGetAlert db id with
  | none => (false, db)
  | some alert =>
      let cnt := (db.alerts.filter (fun a =>
        decide (a.id = id ∧ (a.state = .ACKNOWLEDGED ∨ a.state = .IN_PROGRESS)))).length
      if cnt = 0 then (false, db)
      else
        (true,
          { alerts := db.alerts.map
              (resolveRowUpdate id operator_id root_cause resolution_notes downtime now),
            logs := db.logs ++
              [resolveLogRow id operator_id root_cause resolution_notes downtime now alert] })

/-- Embedding of `Database.cleanup_old_data`: archive resolved alerts past
the retention cutoff and delete old logs. -/
def dbCleanupOldData (db : Store) (alert_cutoff log_cutoff : ℚ) : Store :=
  { alerts := db.alerts.map (fun a =>
      if decide (a.state = .RESOLVED) && (match a.resolved_at with
        | some t => decide (t < alert_cutoff)
        | none => false) then { a with state := .LOGGED } else a),
    logs := db.logs.filter (fun l => ! decide (l.resolved_at < log_cutoff)) }

/-!
## Alert lifecycle operations of `AlertManager` (`alert_manager.py`)
-/

structure OpResult where
  success : Bool
  error : Option String
deriving DecidableEq, Repr

/-- Embedding of `AlertManager._create_alert_if_new` restricted to its store
effect: dedup check, then insert.  (Rate-bucket bookkeeping is handled by the
manager-level embedding further below.) -/
def createAlertIfNew (db : Store) (machine : String) (atype : AlertType)
    (id severity message : String) (now : ℚ) : Option String × Store :=
  if checkDuplicateAlert db machine atype then (none, db)
  else (some id, dbCreateAlert db id machine atype severity message now)

/-- Embedding of `AlertManager.acknowledge_alert`. -/
def managerAcknowledgeAlert (db : Store) (alert_id operator_id : String) (now : ℚ) :
    OpResult × Store :=
  if operator_id.length < 3 then (⟨false, some "Invalid operator ID"⟩, db)
  else
    match dbGetAlert db alert_id with
    | none => (⟨false, some "Alert not found"⟩, db)
    | some alert =>
        if alert.state ≠ .ACTIVE then
          (⟨false, some "can only acknowledge ACTIVE alerts"⟩, db)
        else
          let r := dbAcknowledgeAlert db alert_id operator_id now
          if r.1 then (⟨true, none⟩, r.2)
          else (⟨false, some "Failed to acknowledge alert"⟩, r.2)

/-- Embedding of `AlertManager.resolve_alert`.  The Python truthiness guards
`not operator_id` / `not root_cause` / `not resolution_notes` are subsumed by
the length checks (an empty string has length 0). -/
def managerResolveAlert (db : Store) (alert_id operator_id root_cause resolution_notes : String)
    (downtime_minutes : ℤ) (now : ℚ) : OpResult × Store :=
  if operator_id.length < 3 then (⟨false, some "Invalid operator ID"⟩, db)
  else if root_cause.length < Config.MIN_ROOT_CAUSE_LENGTH then
    (⟨false, some "Root cause too short"⟩, db)
  else if resolution_notes.length < Config.MIN_RESOLUTION_NOTES_LENGTH then
    (⟨false, some "Resolution notes too short"⟩, db)
  else if downtime_minutes < 0 then (⟨false, some "Downtime cannot be negative"⟩, db)
  else
    match dbGetAlert db alert_id with
    | none => (⟨false, some "Alert not found"⟩, db)
    | some alert =>
        if ¬ (alert.state = .ACKNOWLEDGED ∨ alert.state = .IN_PROGRESS) then
          (⟨false, some "can only resolve ACKNOWLEDGED or IN_PROGRESS alerts"⟩, db)
        else
          let r := dbResolveAlert db alert_id operator_id root_cause resolution_notes
            downtime_minutes now
          if r.1 then (⟨true, none⟩, r.2)
          else (⟨false, some "Failed to resolve alert"⟩, r.2)

/-- Store states reachable through the alert-writing operations of the code
base: alert creation via `_create_alert_if_new`, the manager lifecycle
operations, and the retention sweep. -/
inductive StoreReachable : Store → Prop where
  | init : StoreReachable ⟨[], []⟩
  | create (db : Store) (h : StoreReachable db) (machine : String) (atype : AlertType)
      (id severity message : String) (now : ℚ) :
      StoreReachable (createAlertIfNew db machine atype id severity message now).2
  | ack (db : Store) (h : StoreReachable db) (alert_id operator_id : String) (now : ℚ) :
      StoreReachable (managerAcknowledgeAlert db alert_id operator_id now).2
  | resolve (db : Store) (h : StoreReachable db)
      (alert_id operator_id root_cause notes : String) (dt : ℤ) (now : ℚ) :
      StoreReachable (managerResolveAlert db alert_id operator_id root_cause notes dt now).2
  | cleanup (db : Store) (h : StoreReachable db) (alert_cutoff log_cutoff : ℚ) :
      StoreReachable (dbCleanupOldData db alert_cutoff log_cutoff)

theorem length_filter_map_le {α : Type} (l : List α) (f : α → α) (p : α → Bool)
    (h : ∀ a, p (f a) = true → p a = true) :
    ((l.map f).filter p).length ≤ (l.filter p).length := by
  induction l with
  | nil => simp
  | cons a t ih =>
      simp only [List.map_cons, List.filter_cons]
      by_cases hpa : p (f a) = true
      · rw [if_pos hpa, if_pos (h a hpa)]
        simpa using ih
      · rw [if_neg hpa]
        by_cases hqa : p a = true
        · rw [if_pos hqa]
          exact le_trans ih (Nat.le_succ _)
        · rw [if_neg hqa]
          exact ih

theorem openCount_append (db : Store) (row : AlertRow) (m : String) (a : AlertType) :
    openCount { db with alerts := db.alerts ++ [row] } m a =
      openCount db m a +
        (if row.machine_id = m ∧ row.alert_type = a ∧ isOpenState row.state = true
          then 1 else 0) := by
  unfold openCount
  rw [List.filter_append, List.length_append]
  congr 1
  by_cases h : row.machine_id = m ∧ row.alert_type = a ∧ isOpenState row.state = true
  · simp [h]
  · simp [h]

theorem openCount_ack_le (db : Store) (id operator_id : String) (now : ℚ)
    (m : String) (a : AlertType) :
    openCount (dbAcknowledgeAlert db id operator_id now).2 m a ≤ openCount db m a := by
  unfold dbAcknowledgeAlert openCount
  dsimp only
  apply length_filter_map_le
  intro r hr
  by_cases hc : r.id = id ∧ r.state = .ACTIVE
  · rw [if_pos hc] at hr
    simp only [decide_eq_true_iff] at hr ⊢
    exact ⟨hr.1, hr.2.1, by rw [hc.2]; rfl⟩
  · rwa [if_neg hc] at hr

theorem openCount_resolve_le (db : Store) (id op rc notes : String) (dt : ℤ) (now : ℚ)
    (m : String) (a : AlertType) :
    openCount (dbResolveAlert db id op rc notes dt now).2 m a ≤ openCount db m a := by
  unfold dbResolveAlert
  cases hga : dbGetAlert db id with
  | none => exact le_refl _
  | some alert =>
      dsimp only
      split
      · exact le_refl _
      · unfold openCount
        dsimp only
        apply length_filter_map_le
        intro r hr
        unfold resolveRowUpdate at hr
        by_cases hc : r.id = id ∧ (r.state = .ACKNOWLEDGED ∨ r.state = .IN_PROGRESS)
        · rw [if_pos hc] at hr
          simp only [decide_eq_true_iff] at hr
          exact absurd hr.2.2 (by simp [isOpenState])
        · rwa [if_neg hc] at hr

theorem openCount_cleanup_le (db : Store) (ac lc : ℚ) (m : String) (a : AlertType) :
    openCount (dbCleanupOldData db ac lc) m a ≤ openCount db m a := by
  unfold dbCleanupOldData openCount
  dsimp only
  apply length_filter_map_le
  intro r hr
  by_cases hc : (decide (r.state = AlertState.RESOLVED) && (match r.resolved_at with
      | some t => decide (t < ac)
      | none => false)) = true
  · rw [if_pos hc] at hr
    simp only [decide_eq_true_iff] at hr
    exact absurd hr.2.2 (by simp [isOpenState])
  · rwa [if_neg hc] at hr

/-- C1: in every store state reachable through the alert operations, each
`(machine_id, alert_type)` pair has at most one persisted alert in an open
state (`ACTIVE`, `ACKNOWLEDGED` or `IN_PROGRESS`); and `_create_alert_if_new`
returns `None` and leaves the store unchanged whenever the duplicate check
fires. -/
theorem alert_open_uniqueness_invariant :
    (∀ db, StoreReachable db → ∀ machine atype, openCount db machine atype ≤ 1) ∧
    (∀ db machine atype id severity message now,
      checkDuplicateAlert db machine atype = true →
        createAlertIfNew db machine atype id severity message now = (none, db)) := by
  constructor
  · intro db h
    induction h with
    | init => intro m a; simp [openCount]
    | create db h machine atype id severity message now ih =>
        intro m a
        unfold createAlertIfNew
        split
        · exact ih m a
        · next hdup =>
            show openCount (dbCreateAlert db id machine atype severity message now) m a ≤ 1
            unfold dbCreateAlert
            rw [openCount_append]
            split_ifs with hcond
            · obtain ⟨h1, h2, h3⟩ := hcond
              have hz : openCount db m a = 0 := by
                unfold checkDuplicateAlert at hdup
                simp only [decide_eq_true_iff] at hdup
                dsimp only at h1 h2
                rw [← h1, ← h2]
                omega
              omega
            · simpa using ih m a
    | ack db h alert_id operator_id now ih =>
        intro m a
        unfold managerAcknowledgeAlert
        split
        · exact ih m a
        · cases hga : dbGetAlert db alert_id with
          | none => exact ih m a
          | some alert =>
              dsimp only
              split
              · exact ih m a
              · split
                · exact le_trans (openCount_ack_le db alert_id operator_id now m a) (ih m a)
                · exact le_trans (openCount_ack_le db alert_id operator_id now m a) (ih m a)
    | resolve db h alert_id operator_id root_cause notes dt now ih =>
        intro m a
        unfold managerResolveAlert
        split
        · exact ih m a
        · split
          · exact ih m a
          · split
            · exact ih m a
            · split
              · exact ih m a
              · cases hga : dbGetAlert db alert_id with
                | none => exact ih m a
                | some alert =>
                    dsimp only
                    split
                    · exact ih m a
                    · split
                      · exact le_trans
                          (openCount_resolve_le db alert_id operator_id root_cause notes dt now m a)
                          (ih m a)
                      · exact le_trans
                          (openCount_resolve_le db alert_id operator_id root_cause notes dt now m a)
                          (ih m a)
    | cleanup db h ac lc ih =>
        intro m a
        exact le_trans (openCount_cleanup_le db ac lc m a) (ih m a)
  · intro db machine atype id severity message now hdup
    unfold createAlertIfNew
    rw [if_pos hdup]

/-- Store holding one open `critical_rul` alert for machine `M-001`. -/
def oneOpenAlertStore : Store :=
  ⟨[{ id := "A1", machine_id := "M-001", alert_type := .criticalRul, severity := "critical",
      message := "m", created_at := 0, state := .ACTIVE }], []⟩

theorem alert_open_uniqueness_invariant_witness :
    openCount ⟨[], []⟩ "M-001" .criticalRul ≤ 1 ∧
      createAlertIfNew oneOpenAlertStore "M-001" .criticalRul "A2" "critical" "m2" 5 =
        (none, oneOpenAlertStore) := by
  constructor
  · exact alert_open_uniqueness_invariant.1 ⟨[], []⟩ StoreReachable.init "M-001" .criticalRul
  · exact alert_open_uniqueness_invariant.2 oneOpenAlertStore "M-001" .criticalRul "A2"
      "critical" "m2" 5 (by simp [checkDuplicateAlert, openCount, oneOpenAlertStore, isOpenState])

theorem find?_map_pres (l : List AlertRow) (id : String) (f : AlertRow → AlertRow)
    (hid : ∀ a, (f a).id = a.id) :
    (l.map f).find? (fun a => decide (a.id = id)) =
      (l.find? (fun a => decide (a.id = id))).map f := by
  induction l with
  | nil => simp
  | cons a t ih =>
      simp only [List.map_cons, List.find?_cons]
      rw [hid a]
      by_cases h : a.id = id
      · simp [h]
      · simp [h, ih]

theorem dbResolveAlert_found (db : Store) (id op rc notes : String) (dt : ℤ) (now : ℚ)
    (alert : AlertRow) (hga : dbGetAlert db id = some alert)
    (hstate : alert.state = .ACKNOWLEDGED ∨ alert.state = .IN_PROGRESS) :
    dbResolveAlert db id op rc notes dt now =
      (true,
        { alerts := db.alerts.map (resolveRowUpdate id op rc notes dt now),
          logs := db.logs ++ [resolveLogRow id op rc notes dt now alert] }) := by
  unfold dbResolveAlert
  rw [hga]
  dsimp only
  have hmem : alert ∈ db.alerts := List.mem_of_find?_eq_some hga
  have hpa : alert.id = id := by
    have h := List.find?_some hga
    rwa [decide_eq_true_iff] at h
  have hcnt : ¬ ((db.alerts.filter (fun a =>
      decide (a.id = id ∧ (a.state = .ACKNOWLEDGED ∨ a.state = .IN_PROGRESS)))).length = 0) := by
    intro h0
    rw [List.length_eq_zero] at h0
    have hm : alert ∈ db.alerts.filter (fun a =>
        decide (a.id = id ∧ (a.state = .ACKNOWLEDGED ∨ a.state = .IN_PROGRESS))) :=
      List.mem_filter.2 ⟨hmem, decide_eq_true ⟨hpa, hstate⟩⟩
    rw [h0] at hm
    cases hm
  rw [if_neg hcnt]

/-- C6: `resolve_alert` succeeds exactly when the operator id has length ≥ 3,
the root cause length ≥ 5, the notes length ≥ 10, the downtime is
non-negative, and the alert exists in state ACKNOWLEDGED or IN_PROGRESS; on
success the alert becomes RESOLVED and the log `LOG-<alert_id>` is appended in
the same transaction; on failure the store is unchanged. -/
theorem resolveAlert_spec (db : Store)
    (alert_id operator_id root_cause resolution_notes : String)
    (downtime_minutes : ℤ) (now : ℚ) :
    ((managerResolveAlert db alert_id operator_id root_cause resolution_notes
        downtime_minutes now).1.success = true ↔
      (3 ≤ operator_id.length ∧ Config.MIN_ROOT_CAUSE_LENGTH ≤ root_cause.length ∧
        Config.MIN_RESOLUTION_NOTES_LENGTH ≤ resolution_notes.length ∧
        0 ≤ downtime_minutes ∧
        ∃ alert, dbGetAlert db alert_id = some alert ∧
          (alert.state = .ACKNOWLEDGED ∨ alert.state = .IN_PROGRESS))) ∧
    ((managerResolveAlert db alert_id operator_id root_cause resolution_notes
        downtime_minutes now).1.success = true →
      (∃ alert2, dbGetAlert (managerResolveAlert db alert_id operator_id root_cause
          resolution_notes downtime_minutes now).2 alert_id = some alert2 ∧
        alert2.state = .RESOLVED) ∧
      (∃ log, (managerResolveAlert db alert_id operator_id root_cause resolution_notes
          downtime_minutes now).2.logs = db.logs ++ [log] ∧
        log.id = "LOG-" ++ alert_id ∧ log.alert_id = alert_id)) ∧
    ((managerResolveAlert db alert_id operator_id root_cause resolution_notes
        downtime_minutes now).1.success = false →
      (managerResolveAlert db alert_id operator_id root_cause resolution_notes
        downtime_minutes now).2 = db) := by
  unfold managerResolveAlert
  split
  · next hop =>
      refine ⟨⟨fun hc => absurd hc (by simp), fun hr => by omega⟩, fun hc => absurd hc (by simp),
        fun _ => rfl⟩
  · next hop =>
      split
      · next hrc =>
          refine ⟨⟨fun hc => absurd hc (by simp), fun hr => by
            obtain ⟨-, h2, -⟩ := hr; omega⟩, fun hc => absurd hc (by simp), fun _ => rfl⟩
      · next hrc =>
          split
          · next hnt =>
              refine ⟨⟨fun hc => absurd hc (by simp), fun hr => by
                obtain ⟨-, -, h3, -⟩ := hr; omega⟩, fun hc => absurd hc (by simp), fun _ => rfl⟩
          · next hnt =>
              split
              · next hdt =>
                  refine ⟨⟨fun hc => absurd hc (by simp), fun hr => by
                    obtain ⟨-, -, -, h4, -⟩ := hr; omega⟩, fun hc => absurd hc (by simp),
                    fun _ => rfl⟩
              · next hdt =>
                  cases hga : dbGetAlert db alert_id with
                  | none =>
                      refine ⟨⟨fun hc => absurd hc (by simp), fun hr => ?_⟩,
                        fun hc => absurd hc (by simp), fun _ => rfl⟩
                      obtain ⟨-, -, -, -, alert, hga2, -⟩ := hr
                      cases hga2
                  | some alert =>
                      dsimp only
                      split
                      · next hst =>
                          refine ⟨⟨fun hc => absurd hc (by simp), fun hr => ?_⟩,
                            fun hc => absurd hc (by simp), fun _ => rfl⟩
                          obtain ⟨-, -, -, -, alert2, hga2, hst2⟩ := hr
                          injection hga2 with he
                          exact absurd (by rw [he]; exact hst2) hst
                      · next hst =>
                          rw [not_not] at hst
                          have hpa : alert.id = alert_id := by
                            have h := List.find?_some hga
                            rwa [decide_eq_true_iff] at h
                          have hid : ∀ a : AlertRow,
                              (resolveRowUpdate alert_id operator_id root_cause
                                resolution_notes downtime_minutes now a).id = a.id := by
                            intro a
                            unfold resolveRowUpdate
                            split <;> rfl
                          rw [dbResolveAlert_found db alert_id operator_id root_cause
                            resolution_notes downtime_minutes now alert hga hst]
                          dsimp only
                          rw [if_pos (rfl : true = true)]
                          refine ⟨⟨fun _ => ⟨by omega, by omega, by omega, by omega,
                            alert, rfl, hst⟩, fun _ => rfl⟩, fun _ => ⟨?_, ?_⟩,
                            fun hc => absurd hc (by simp)⟩
                          · refine ⟨resolveRowUpdate alert_id operator_id root_cause
                              resolution_notes downtime_minutes now alert, ?_, ?_⟩
                            · show (db.alerts.map (resolveRowUpdate alert_id operator_id
                                  root_cause resolution_notes downtime_minutes now)).find?
                                (fun a => decide (a.id = alert_id)) =
                                some (resolveRowUpdate alert_id operator_id root_cause
                                  resolution_notes downtime_minutes now alert)
                              rw [find?_map_pres db.alerts alert_id _ hid]
                              rw [show db.alerts.find? (fun a => decide (a.id = alert_id)) =
                                some alert from hga]
                              simp only [Option.map_some']
                            · unfold resolveRowUpdate
                              rw [if_pos ⟨hpa, hst⟩]
                          · exact ⟨resolveLogRow alert_id operator_id root_cause
                              resolution_notes downtime_minutes now alert, rfl, rfl, rfl⟩

/-- One acknowledged alert row, used to exercise the lifecycle. -/
def ackAlertRow : AlertRow :=
  { id := "A1", machine_id := "M-001", alert_type := .criticalRul, severity := "critical",
    message := "m", created_at := 0, state := .ACKNOWLEDGED }

/-- Store with one acknowledged alert, used to exercise the lifecycle. -/
def ackAlertStore : Store := ⟨[ackAlertRow], []⟩

theorem resolveAlert_spec_witness :
    (∃ alert2, dbGetAlert (managerResolveAlert ackAlertStore "A1" "OP-001" "Bearing wear"
        "Replaced bearing assembly" 120 50).2 "A1" = some alert2 ∧
      alert2.state = .RESOLVED) ∧
    (∃ log, (managerResolveAlert ackAlertStore "A1" "OP-001" "Bearing wear"
        "Replaced bearing assembly" 120 50).2.logs = ackAlertStore.logs ++ [log] ∧
      log.id = "LOG-" ++ "A1" ∧ log.alert_id = "A1") := by
  have h := resolveAlert_spec ackAlertStore "A1" "OP-001" "Bearing wear"
    "Replaced bearing assembly" 120 50
  refine h.2.1 ?_
  refine (h.1).2 ⟨by decide, by decide, by decide, by decide, ?_⟩
  exact ⟨ackAlertRow, by simp [dbGetAlert, ackAlertStore, ackAlertRow], Or.inl rfl⟩

/-!
## Alert manager pipeline (`alert_manager.py`, `AlertManager`)

Association lists model the Python dictionaries (`pending_alerts`,
`recent_alerts`, the window manager's `windows`), preserving insertion order.
Fresh `uuid` alert ids are supplied as oracle inputs.  Human-readable alert
message strings (f-strings over floats) are passed through as opaque inputs.
-/

def alookup {α β : Type} [DecidableEq α] (l : List (α × β)) (k : α) : Option β :=
  (l.find? (fun p => decide (p.1 = k))).map Prod.snd

/-- Python dict assignment `d[k] = v`: overwrite in place, or append. -/
def aupsert {α β : Type} [DecidableEq α] (l : List (α × β)) (k : α) (v : β) :
    List (α × β) :=
  if (l.find? (fun p => decide (p.1 = k))).isSome then
    l.map (fun p => if p.1 = k then (k, v) else p)
  else l ++ [(k, v)]

/-- Python `del d[k]`. -/
def aerase {α β : Type} [DecidableEq α] (l : List (α × β)) (k : α) : List (α × β) :=
  l.filter (fun p => ! decide (p.1 = k))

/-- Embedding of class `PendingAlert`. -/
structure PendingAlert where
  alert_type : AlertType
  severity : String
  first_triggered : ℚ
  last_triggered : ℚ
  trigger_count : ℕ
deriving DecidableEq, Repr

/-- `PendingAlert.update`: refresh `last_triggered`, bump the counter. -/
def PendingAlert.update (p : PendingAlert) (now : ℚ) : PendingAlert :=
  { p with last_triggered := now, trigger_count := p.trigger_count + 1 }

/-- `PendingAlert.is_persistent`: the condition has been sustained for at
least `required_seconds`. -/
def PendingAlert.isPersistent (p : PendingAlert) (required_seconds : ℚ) : Bool :=
  decide (required_seconds ≤ p.last_triggered - p.first_triggered)

/-- In-memory state of `AlertManager` (plus window manager) for one process. -/
structure ManagerState where
  windows : List ((String × AlertType) × List WindowSample)
  pending_alerts : List ((String × AlertType) × PendingAlert)
  recent_alerts : List (String × List ℚ)
  db : Store
deriving DecidableEq, Repr

def initManagerState : ManagerState := ⟨[], [], [], ⟨[], []⟩⟩

/-- Embedding of `EvaluationWindowManager.add_sample`: create the window for
`(machine, alert_type)` on first use, then append and prune. -/
def wmAddSample (ws : List ((String × AlertType) × List WindowSample))
    (machine : String) (atype : AlertType) (now risk health rul : ℚ)
    (sensors : SensorData) : List ((String × AlertType) × List WindowSample) :=
  let cur := (alookup ws (machine, atype)).getD []
  let w : EvaluationWindow := ⟨machine, atype, evaluationWindowConfig atype, cur⟩
  aupsert ws (machine, atype) (windowAddSample w now risk health rul sensors).samples

/-- Embedding of `EvaluationWindowManager.evaluate`: missing windows never
approve. -/
def wmEvaluate (ws : List ((String × AlertType) × List WindowSample))
    (machine : String) (atype : AlertType) (now : ℚ) : WindowEvaluation :=
  match alookup ws (machine, atype) with
  | none => ⟨false, 0, 0, 0, 0, 0⟩
  | some samples => windowEvaluate ⟨machine, atype, evaluationWindowConfig atype, samples⟩ now

/-- Embedding of `AlertManager._check_multi_sensor_confirmation`. -/
def checkMultiSensorConfirmation (sensor : SensorData) (severity : String) : Bool :=
  if severity ≠ "critical" ∨ Config.MULTI_SENSOR_REQUIRED_FOR_CRITICAL = false then true
  else
    let degraded : ℕ :=
      (if (3:ℚ)/2 < sensor.vibration_x.getD 0 then 1 else 0) +
      (if (3:ℚ)/2 < sensor.vibration_y.getD 0 then 1 else 0) +
      (if (85:ℚ) < sensor.temperature.getD 0 then 1 else 0) +
      (if sensor.pressure.getD 200 < (90:ℚ) then 1 else 0) +
      (if sensor.rpm.getD 1500 < (1350:ℚ) then 1 else 0)
    decide (Config.MIN_DEGRADED_SENSORS_FOR_CRITICAL ≤ degraded)

/-- Embedding of `AlertManager._check_rate_limit`: prune the machine's bucket
to the strict last 60 seconds, store it back, and compare against the limit. -/
def checkRateLimit (recent : List (String × List ℚ)) (machine : String) (now : ℚ) :
    Bool × List (String × List ℚ) :=
  let pruned := ((alookup recent machine).getD []).filter (fun t => decide (now - 60 < t))
  (decide (pruned.length < Config.MAX_ALERTS_PER_MACHINE_PER_MINUTE),
    aupsert recent machine pruned)

/-- Embedding of `AlertManager._cleanup_old_pending_alerts` (staleness 120 s). -/
def cleanupOldPendingAlerts (pending : List ((String × AlertType) × PendingAlert))
    (now : ℚ) : List ((String × AlertType) × PendingAlert) :=
  pending.filter (fun p => ! decide (p.2.last_triggered < now - 120))

/-- Embedding of `AlertManager._cleanup_old_rate_limit_data`. -/
def cleanupOldRateLimitData (recent : List (String × List ℚ)) (now : ℚ) :
    List (String × List ℚ) :=
  (recent.map (fun p => (p.1, p.2.filter (fun t => decide (now - 60 < t))))).filter
    (fun p => ! p.2.isEmpty)

/-- Embedding of `AlertManager._create_alert_if_new` including its rate-bucket
bookkeeping. -/
def managerCreateAlertIfNew (db : Store) (recent : List (String × List ℚ))
    (machine : String) (atype : AlertType) (newId severity message : String) (now : ℚ) :
    Option String × Store × List (String × List ℚ) :=
  if checkDuplicateAlert db machine atype then (none, db, recent)
  else
    (some newId, dbCreateAlert db newId machine atype severity message now,
      aupsert recent machine (((alookup recent machine).getD []) ++ [now]))

/-- Result of `_process_alert_with_persistence` (returned id plus the parts of
the manager state it can change). -/
structure ProcessResult where
  alert_id : Option String
  pending : List ((String × AlertType) × PendingAlert)
  db : Store
  recent : List (String × List ℚ)
deriving DecidableEq, Repr

/-- Embedding of `AlertManager._process_alert_with_persistence`. -/
def processAlertWithPersistence (pending : List ((String × AlertType) × PendingAlert))
    (db : Store) (recent : List (String × List ℚ)) (machine : String) (atype : AlertType)
    (severity message newId : String) (now : ℚ) : ProcessResult :=
  let key := (machine, atype)
  let required := persistenceWindow atype
  match alookup pending key with
  | some p =>
      let p2 := p.update now
      if p2.isPersistent required then
        let r := managerCreateAlertIfNew db recent machine atype newId severity message now
        ⟨r.1, aerase pending key, r.2.1, r.2.2⟩
      else
        ⟨none, aupsert pending key p2, db, recent⟩
  | none =>
      ⟨none, pending ++ [(key, ⟨atype, severity, now, now, 1⟩)], db, recent⟩

/-- Input of one `check_and_create_alerts` call.  The `id…` fields are the
oracle values of the fresh `uuid` ids; the `msg…` fields the formatted
message strings. -/
structure CallInput where
  now : ℚ
  machine_id : String
  sensor_data : SensorData
  rul_hours : ℚ
  health_score : ℚ
  is_anomaly : Bool
  anomaly_score : ℚ
  idRul : String := ""
  idHealth : String := ""
  idAnomaly : String := ""
  msgRul : String := ""
  msgHealth : String := ""
  msgAnomaly : String := ""
deriving DecidableEq, Repr

/-- Wrapper collecting the created id (if any) back into the state, shared by
the three alert-type branches of `check_and_create_alerts`. -/
def runProcessStep (s : ManagerState) (machine : String) (atype : AlertType)
    (severity message newId : String) (now : ℚ) : List String × ManagerState :=
  let r := processAlertWithPersistence s.pending_alerts s.db s.recent_alerts machine atype
    severity message newId now
  ((match r.alert_id with
    | some i => [i]
    | none => []),
   { s with pending_alerts := r.pending, db := r.db, recent_alerts := r.recent })

/-- RUL branch of `check_and_create_alerts` (critical / warning / clear). -/
def rulBranch (s : ManagerState) (inp : CallInput) : List String × ManagerState :=
  if inp.rul_hours < Config.RUL_CRITICAL_TRIGGER then
    (if (wmEvaluate s.windows inp.machine_id .criticalRul inp.now).may_proceed &&
        checkMultiSensorConfirmation inp.sensor_data "critical" then
      runProcessStep s inp.machine_id .criticalRul "critical" inp.msgRul inp.idRul inp.now
    else ([], s))
  else if inp.rul_hours < Config.RUL_WARNING_TRIGGER then
    (if (wmEvaluate s.windows inp.machine_id .warningRul inp.now).may_proceed then
      runProcessStep s inp.machine_id .warningRul "warning" inp.msgRul inp.idRul inp.now
    else ([], s))
  else
    let p1 := if Config.RUL_WARNING_CLEAR < inp.rul_hours then
        aerase s.pending_alerts (inp.machine_id, .warningRul) else s.pending_alerts
    let p2 := if Config.RUL_CRITICAL_CLEAR < inp.rul_hours then
        aerase p1 (inp.machine_id, .criticalRul) else p1
    ([], { s with pending_alerts := p2 })

/-- Health branch of `check_and_create_alerts` (critical / warning / clear). -/
def healthBranch (s : ManagerState) (inp : CallInput) : List String × ManagerState :=
  if inp.health_score < Config.HEALTH_CRITICAL_TRIGGER then
    (if (wmEvaluate s.windows inp.machine_id .lowHealthCritical inp.now).may_proceed &&
        checkMultiSensorConfirmation inp.sensor_data "critical" then
      runProcessStep s inp.machine_id .lowHealthCritical "critical" inp.msgHealth
        inp.idHealth inp.now
    else ([], s))
  else if inp.health_score < Config.HEALTH_WARNING_TRIGGER then
    (if (wmEvaluate s.windows inp.machine_id .lowHealthWarning inp.now).may_proceed then
      runProcessStep s inp.machine_id .lowHealthWarning "warning" inp.msgHealth
        inp.idHealth inp.now
    else ([], s))
  else
    let p1 := if Config.HEALTH_WARNING_CLEAR < inp.health_score then
        aerase s.pending_alerts (inp.machine_id, .lowHealthWarning) else s.pending_alerts
    let p2 := if Config.HEALTH_CRITICAL_CLEAR < inp.health_score then
        aerase p1 (inp.machine_id, .lowHealthCritical) else p1
    ([], { s with pending_alerts := p2 })

/-- Anomaly branch of `check_and_create_alerts`. -/
def anomalyBranch (s : ManagerState) (inp : CallInput) : List String × ManagerState :=
  if inp.is_anomaly then
    (if (wmEvaluate s.windows inp.machine_id .anomalyDetected inp.now).may_proceed then
      runProcessStep s inp.machine_id .anomalyDetected
        (if Config.ANOMALY_CRITICAL_SCORE < inp.anomaly_score then "critical" else "warning")
        inp.msgAnomaly inp.idAnomaly inp.now
    else ([], s))
  else
    ([], { s with pending_alerts := aerase s.pending_alerts (inp.machine_id, .anomalyDetected) })

/-- Step 2 of `check_and_create_alerts`: feed the sample (with its computed
risk score) to the five windows of the machine, in source order. -/
def feedWindows (ws : List ((String × AlertType) × List WindowSample)) (inp : CallInput) :
    List ((String × AlertType) × List WindowSample) :=
  let risk := calculateRiskScore inp.rul_hours inp.health_score inp.anomaly_score
  let ws1 := wmAddSample ws inp.machine_id .warningRul inp.now risk
    inp.health_score inp.rul_hours inp.sensor_data
  let ws2 := wmAddSample ws1 inp.machine_id .criticalRul inp.now risk
    inp.health_score inp.rul_hours inp.sensor_data
  let ws3 := wmAddSample ws2 inp.machine_id .lowHealthWarning inp.now risk
    inp.health_score inp.rul_hours inp.sensor_data
  let ws4 := wmAddSample ws3 inp.machine_id .lowHealthCritical inp.now risk
    inp.health_score inp.rul_hours inp.sensor_data
  wmAddSample ws4 inp.machine_id .anomalyDetected inp.now risk
    inp.health_score inp.rul_hours inp.sensor_data

/-- Step 3 of `check_and_create_alerts`: the three alert-type branches in
source order, threading the state. -/
def pipelineBranches (s : ManagerState) (inp : CallInput) :
    List String × ManagerState :=
  let r1 := rulBranch s inp
  let r2 := healthBranch r1.2 inp
  let r3 := anomalyBranch r2.2 inp
  (r1.1 ++ (r2.1 ++ r3.1), r3.2)

/-- Embedding of `AlertManager.check_and_create_alerts`: cleanups, rate
limit, risk scoring, window feeding, then the three alert-type branches in
source order. -/
def checkAndCreateAlerts (st : ManagerState) (inp : CallInput) :
    List String × ManagerState :=
  let pending0 := cleanupOldPendingAlerts st.pending_alerts inp.now
  let recent0 := cleanupOldRateLimitData st.recent_alerts inp.now
  let rate := checkRateLimit recent0 inp.machine_id inp.now
  if rate.1 = false then
    ([], { st with pending_alerts := pending0, recent_alerts := rate.2 })
  else
    pipelineBranches ⟨feedWindows st.windows inp, pending0, rate.2, st.db⟩ inp

/-- Run a sequence of `check_and_create_alerts` calls, recording for each
call its input and the number of created alerts. -/
def runCalls (st : ManagerState) (inputs : List CallInput) :
    ManagerState × List (CallInput × ℕ) :=
  match inputs with
  | [] => (st, [])
  | i :: rest =>
      let r := checkAndCreateAlerts st i
      let rec2 := runCalls r.2 rest
      (rec2.1, (i, r.1.length) :: rec2.2)

/-- Creation timestamps for one machine along a recorded trace. -/
def creationTimes (machine : String) (res : List (CallInput × ℕ)) : List ℚ :=
  res.foldr (fun p acc =>
    (if p.1.machine_id = machine then List.replicate p.2 p.1.now else []) ++ acc) []

/-- Number of creation timestamps inside the window `(T, T+60]`. -/
def windowCount (T : ℚ) (l : List ℚ) : ℕ :=
  (l.filter (fun t => decide (T < t ∧ t ≤ T + 60))).length

/-!
### Association-list lemmas
-/

theorem alookup_aerase_self {α β : Type} [DecidableEq α] (l : List (α × β)) (k : α) :
    alookup (aerase l k) k = none := by
  unfold alookup aerase
  induction l with
  | nil => rfl
  | cons p t ih =>
      rw [List.filter_cons]
      by_cases hp : p.1 = k
      · rw [if_neg (by simp [hp])]
        exact ih
      · rw [if_pos (by simp [hp]), List.find?_cons_of_neg _ (by simp [hp])]
        exact ih

theorem alookup_aerase_ne {α β : Type} [DecidableEq α] (l : List (α × β)) (k k2 : α)
    (h : k2 ≠ k) : alookup (aerase l k) k2 = alookup l k2 := by
  unfold alookup aerase
  induction l with
  | nil => rfl
  | cons p t ih =>
      rw [List.filter_cons]
      by_cases hp : p.1 = k
      · rw [if_neg (by simp [hp])]
        have hne : ¬ (p.1 = k2) := by rw [hp]; exact fun he => h he.symm
        rw [List.find?_cons_of_neg _ (by simp [hne])]
        exact ih
      · rw [if_pos (by simp [hp])]
        by_cases hp2 : p.1 = k2
        · rw [List.find?_cons_of_pos _ (by simp [hp2]),
            List.find?_cons_of_pos _ (by simp [hp2])]
        · rw [List.find?_cons_of_neg _ (by simp [hp2]),
            List.find?_cons_of_neg _ (by simp [hp2])]
          exact ih

theorem aupsert_pred_comm {α β : Type} [DecidableEq α] (k k2 : α) (v : β) :
    ((fun p : α × β => decide (p.1 = k2)) ∘ (fun p : α × β => if p.1 = k then (k, v) else p))
      = (fun p : α × β => decide (p.1 = k2)) := by
  funext a
  by_cases ha : a.1 = k
  · show decide ((if a.1 = k then (k, v) else a).1 = k2) = decide (a.1 = k2)
    rw [if_pos ha]
    show decide (k = k2) = decide (a.1 = k2)
    rw [ha]
  · show decide ((if a.1 = k then (k, v) else a).1 = k2) = decide (a.1 = k2)
    rw [if_neg ha]

theorem alookup_aupsert_self {α β : Type} [DecidableEq α] (l : List (α × β)) (k : α) (v : β) :
    alookup (aupsert l k v) k = some v := by
  unfold alookup aupsert
  by_cases hs : (l.find? (fun p => decide (p.1 = k))).isSome
  · rw [if_pos hs, List.find?_map]
    have hpred : ((fun p : α × β => decide (p.1 = k)) ∘
        (fun p : α × β => if p.1 = k then (k, v) else p)) =
        (fun p : α × β => decide (p.1 = k)) := by
      funext a
      by_cases ha : a.1 = k
      · show decide ((if a.1 = k then (k, v) else a).1 = k) = decide (a.1 = k)
        rw [if_pos ha]
        show decide (k = k) = decide (a.1 = k)
        rw [ha]
      · show decide ((if a.1 = k then (k, v) else a).1 = k) = decide (a.1 = k)
        rw [if_neg ha]
    rw [hpred]
    obtain ⟨a, ha⟩ := Option.isSome_iff_exists.mp hs
    rw [ha]
    have hak : a.1 = k := by
      have hfs := List.find?_some ha
      simpa using hfs
    simp [hak]
  · rw [if_neg hs, List.find?_append]
    have hnone : l.find? (fun p => decide (p.1 = k)) = none := by
      cases hfind : l.find? (fun p => decide (p.1 = k)) with
      | none => rfl
      | some a => rw [hfind] at hs; simp at hs
    rw [hnone]
    simp

theorem alookup_aupsert_ne {α β : Type} [DecidableEq α] (l : List (α × β)) (k k2 : α) (v : β)
    (h : k2 ≠ k) : alookup (aupsert l k v) k2 = alookup l k2 := by
  unfold alookup aupsert
  by_cases hs : (l.find? (fun p => decide (p.1 = k))).isSome
  · rw [if_pos hs, List.find?_map, aupsert_pred_comm k k2 v]
    cases hf : l.find? (fun p => decide (p.1 = k2)) with
    | none => simp
    | some a =>
        have hak2 : a.1 = k2 := by
          have hfs := List.find?_some hf
          simpa using hfs
        have hne : ¬ (a.1 = k) := by rw [hak2]; exact h
        simp [hne]
  · rw [if_neg hs, List.find?_append]
    cases hf : l.find? (fun p => decide (p.1 = k2)) with
    | some a => simp
    | none =>
        simp only [Option.none_or]
        rw [List.find?_cons_of_neg _ (by simp; exact fun he => h he.symm)]
        simp

theorem alookup_append_single_self {α β : Type} [DecidableEq α] (l : List (α × β))
    (k : α) (v : β) (hnone : alookup l k = none) : alookup (l ++ [(k, v)]) k = some v := by
  unfold alookup at hnone ⊢
  rw [List.find?_append]
  have hn2 : l.find? (fun p => decide (p.1 = k)) = none := by
    cases hfind : l.find? (fun p => decide (p.1 = k)) with
    | none => rfl
    | some a => rw [hfind] at hnone; simp at hnone
  rw [hn2]
  simp

theorem alookup_append_single_ne {α β : Type} [DecidableEq α] (l : List (α × β))
    (k k2 : α) (v : β) (h : k2 ≠ k) : alookup (l ++ [(k, v)]) k2 = alookup l k2 := by
  unfold alookup
  rw [List.find?_append]
  cases hf : l.find? (fun p => decide (p.1 = k2)) with
  | some a => simp
  | none =>
      simp only [Option.none_or]
      rw [List.find?_cons_of_neg _ (by simp; exact fun he => h he.symm)]
      simp

/-- C2: `_process_alert_with_persistence` returns a non-`None` alert id only
when a pending entry for `(machine, alert_type)` existed and, after its
`update()` at the call time, satisfies `is_persistent` for the alert-type's
persistence window — i.e. `last_triggered − first_triggered ≥
PERSISTENCE_SECONDS[alert_type]` at the moment of emission. -/
theorem processAlert_some_implies_persistent
    (pending : List ((String × AlertType) × PendingAlert)) (db : Store)
    (recent : List (String × List ℚ)) (machine : String) (atype : AlertType)
    (severity message newId : String) (now : ℚ) (i : String)
    (h : (processAlertWithPersistence pending db recent machine atype severity message
      newId now).alert_id = some i) :
    ∃ p, alookup pending (machine, atype) = some p ∧
      (p.update now).isPersistent (persistenceWindow atype) = true := by
  unfold processAlertWithPersistence at h
  dsimp only at h
  cases hl : alookup pending (machine, atype) with
  | none =>
      rw [hl] at h
      exact Option.noConfusion h
  | some p =>
      rw [hl] at h
      dsimp only at h
      by_cases hp : (p.update now).isPersistent (persistenceWindow atype) = true
      · exact ⟨p, rfl, hp⟩
      · rw [if_neg hp] at h
        exact Option.noConfusion h

/-- Pending map with one mature entry, used as concrete input. -/
def maturePending : List ((String × AlertType) × PendingAlert) :=
  [(("M-001", .criticalRul), ⟨.criticalRul, "critical", 0, 20, 3⟩)]

theorem processAlert_some_implies_persistent_witness :
    ∃ p, alookup maturePending ("M-001", .criticalRul) = some p ∧
      (p.update 30).isPersistent (persistenceWindow .criticalRul) = true := by
  refine processAlert_some_implies_persistent maturePending ⟨[], []⟩ [] "M-001" .criticalRul
    "critical" "m" "A1" 30 "A1" ?_
  norm_num [processAlertWithPersistence, maturePending, alookup, PendingAlert.update,
    PendingAlert.isPersistent, persistenceWindow, managerCreateAlertIfNew,
    checkDuplicateAlert, openCount, dbCreateAlert, aupsert]

/-- C10: when the persistence window is met for an existing pending entry,
`_process_alert_with_persistence` deletes the entry unconditionally before
attempting creation; in particular when the store already holds a duplicate
the call returns `None` and the entry is gone all the same. -/
theorem processAlert_deletes_pending_unconditionally
    (pending : List ((String × AlertType) × PendingAlert)) (db : Store)
    (recent : List (String × List ℚ)) (machine : String) (atype : AlertType)
    (severity message newId : String) (now : ℚ) (p : PendingAlert)
    (hl : alookup pending (machine, atype) = some p)
    (hp : (p.update now).isPersistent (persistenceWindow atype) = true) :
    alookup (processAlertWithPersistence pending db recent machine atype severity message
      newId now).pending (machine, atype) = none ∧
    (checkDuplicateAlert db machine atype = true →
      (processAlertWithPersistence pending db recent machine atype severity message
        newId now).alert_id = none) := by
  unfold processAlertWithPersistence
  dsimp only
  rw [hl]
  dsimp only
  rw [if_pos hp]
  constructor
  · exact alookup_aerase_self pending (machine, atype)
  · intro hdup
    unfold managerCreateAlertIfNew
    rw [if_pos hdup]

/-- Store already holding an open `critical_rul` alert for `M-001`, and the
matching mature pending entry: creation is suppressed yet the entry is
removed. -/
theorem processAlert_deletes_pending_unconditionally_witness :
    alookup (processAlertWithPersistence maturePending oneOpenAlertStore [] "M-001"
      .criticalRul "critical" "m" "A2" 30).pending ("M-001", .criticalRul) = none ∧
    (checkDuplicateAlert oneOpenAlertStore "M-001" .criticalRul = true →
      (processAlertWithPersistence maturePending oneOpenAlertStore [] "M-001"
        .criticalRul "critical" "m" "A2" 30).alert_id = none) := by
  refine processAlert_deletes_pending_unconditionally maturePending oneOpenAlertStore []
    "M-001" .criticalRul "critical" "m" "A2" 30 ⟨.criticalRul, "critical", 0, 20, 3⟩ ?_ ?_
  · simp [maturePending, alookup]
  · norm_num [PendingAlert.update, PendingAlert.isPersistent, persistenceWindow]

theorem riskScore_witness :
    (0 ≤ calculateRiskScore 29 35 0 ∧ calculateRiskScore 29 35 0 ≤ 1) ∧
      calculateRiskScore 29 35 0 = pyRound 3 (riskWeightedSumSpec 29 35 0) := by
  have h := riskScore_bounded_and_eq_rounded_sum 29 35 0
  exact ⟨h.1, h.2 (by norm_num) (by norm_num [Config.MAX_RUL_HOURS]) (by norm_num)
    (by norm_num) (by norm_num) (by norm_num)⟩

/-!
### What the branches of `check_and_create_alerts` do to other pending keys
-/

theorem alookup_filter_keep {α β : Type} [DecidableEq α] (l : List (α × β))
    (q : α × β → Bool) (k : α) (v : β) (hl : alookup l k = some v)
    (hq : q (k, v) = true) : alookup (l.filter q) k = some v := by
  unfold alookup at hl ⊢
  induction l with
  | nil => cases hl
  | cons p t ih =>
      by_cases hp : p.1 = k
      · rw [List.find?_cons_of_pos _ (by simp [hp])] at hl
        have hv : p.2 = v := by simpa using hl
        have hpkv : p = (k, v) := by
          cases p
          simp only at hp hv
          rw [hp, hv]
        rw [List.filter_cons, if_pos (by rw [hpkv]; exact hq)]
        rw [List.find?_cons_of_pos _ (by simp [hp])]
        simpa using hl
      · rw [List.find?_cons_of_neg _ (by simp [hp])] at hl
        rw [List.filter_cons]
        by_cases hqp : q p = true
        · rw [if_pos hqp, List.find?_cons_of_neg _ (by simp [hp])]
          exact ih hl
        · rw [if_neg hqp]
          exact ih hl

theorem processAlert_pending_other (pending : List ((String × AlertType) × PendingAlert))
    (db : Store) (recent : List (String × List ℚ)) (machine : String) (atype : AlertType)
    (severity message newId : String) (now : ℚ) (k : String × AlertType)
    (hk : k ≠ (machine, atype)) :
    alookup (processAlertWithPersistence pending db recent machine atype severity message
      newId now).pending k = alookup pending k := by
  unfold processAlertWithPersistence
  dsimp only
  cases hl : alookup pending (machine, atype) with
  | none => exact alookup_append_single_ne pending (machine, atype) k _ hk
  | some p =>
      dsimp only
      by_cases hp : (p.update now).isPersistent (persistenceWindow atype) = true
      · rw [if_pos hp]
        exact alookup_aerase_ne pending (machine, atype) k hk
      · rw [if_neg hp]
        exact alookup_aupsert_ne pending (machine, atype) k _ hk

theorem runProcessStep_pending_other (s : ManagerState) (machine : String)
    (atype : AlertType) (severity message newId : String) (now : ℚ)
    (k : String × AlertType) (hk : k ≠ (machine, atype)) :
    alookup (runProcessStep s machine atype severity message newId now).2.pending_alerts k =
      alookup s.pending_alerts k := by
  unfold runProcessStep
  exact processAlert_pending_other s.pending_alerts s.db s.recent_alerts machine atype
    severity message newId now k hk

theorem healthBranch_pending_other (s : ManagerState) (inp : CallInput)
    (k : String × AlertType) (hk1 : k ≠ (inp.machine_id, .lowHealthWarning))
    (hk2 : k ≠ (inp.machine_id, .lowHealthCritical)) :
    alookup (healthBranch s inp).2.pending_alerts k = alookup s.pending_alerts k := by
  unfold healthBranch
  split
  · split
    · exact runProcessStep_pending_other s inp.machine_id .lowHealthCritical "critical"
        inp.msgHealth inp.idHealth inp.now k hk2
    · rfl
  · split
    · split
      · exact runProcessStep_pending_other s inp.machine_id .lowHealthWarning "warning"
          inp.msgHealth inp.idHealth inp.now k hk1
      · rfl
    · show alookup (if Config.HEALTH_CRITICAL_CLEAR < inp.health_score then _ else _) k = _
      split
      · rw [alookup_aerase_ne _ _ _ hk2]
        split
        · rw [alookup_aerase_ne _ _ _ hk1]
        · rfl
      · split
        · rw [alookup_aerase_ne _ _ _ hk1]
        · rfl

theorem anomalyBranch_pending_other (s : ManagerState) (inp : CallInput)
    (k : String × AlertType) (hk : k ≠ (inp.machine_id, .anomalyDetected)) :
    alookup (anomalyBranch s inp).2.pending_alerts k = alookup s.pending_alerts k := by
  unfold anomalyBranch
  split
  · split
    · exact runProcessStep_pending_other s inp.machine_id .anomalyDetected _
        inp.msgAnomaly inp.idAnomaly inp.now k hk
    · rfl
  · exact alookup_aerase_ne _ _ _ hk

theorem rulBranch_else_pending (s : ManagerState) (inp : CallInput)
    (h48 : Config.RUL_WARNING_TRIGGER ≤ inp.rul_hours) :
    (rulBranch s inp).2.pending_alerts =
      (if Config.RUL_CRITICAL_CLEAR < inp.rul_hours then
        aerase (if Config.RUL_WARNING_CLEAR < inp.rul_hours then
            aerase s.pending_alerts (inp.machine_id, .warningRul) else s.pending_alerts)
          (inp.machine_id, .criticalRul)
      else (if Config.RUL_WARNING_CLEAR < inp.rul_hours then
            aerase s.pending_alerts (inp.machine_id, .warningRul) else s.pending_alerts)) := by
  unfold rulBranch
  rw [if_neg (show ¬ inp.rul_hours < Config.RUL_CRITICAL_TRIGGER by
      unfold Config.RUL_CRITICAL_TRIGGER
      unfold Config.RUL_WARNING_TRIGGER at h48
      linarith),
    if_neg (show ¬ inp.rul_hours < Config.RUL_WARNING_TRIGGER by
      exact not_lt.mpr h48)]

theorem healthBranch_else_pending (s : ManagerState) (inp : CallInput)
    (h50 : Config.HEALTH_WARNING_TRIGGER ≤ inp.health_score) :
    (healthBranch s inp).2.pending_alerts =
      (if Config.HEALTH_CRITICAL_CLEAR < inp.health_score then
        aerase (if Config.HEALTH_WARNING_CLEAR < inp.health_score then
            aerase s.pending_alerts (inp.machine_id, .lowHealthWarning) else s.pending_alerts)
          (inp.machine_id, .lowHealthCritical)
      else (if Config.HEALTH_WARNING_CLEAR < inp.health_score then
            aerase s.pending_alerts (inp.machine_id, .lowHealthWarning)
          else s.pending_alerts)) := by
  unfold healthBranch
  rw [if_neg (show ¬ inp.health_score < Config.HEALTH_CRITICAL_TRIGGER by
      unfold Config.HEALTH_CRITICAL_TRIGGER
      unfold Config.HEALTH_WARNING_TRIGGER at h50
      linarith),
    if_neg (show ¬ inp.health_score < Config.HEALTH_WARNING_TRIGGER by
      exact not_lt.mpr h50)]

theorem checkAndCreate_pass (st : ManagerState) (inp : CallInput)
    (hrate : (checkRateLimit (cleanupOldRateLimitData st.recent_alerts inp.now)
      inp.machine_id inp.now).1 = true) :
    checkAndCreateAlerts st inp =
      pipelineBranches ⟨feedWindows st.windows inp,
        cleanupOldPendingAlerts st.pending_alerts inp.now,
        (checkRateLimit (cleanupOldRateLimitData st.recent_alerts inp.now)
          inp.machine_id inp.now).2, st.db⟩ inp := by
  unfold checkAndCreateAlerts
  dsimp only
  rw [if_neg (by rw [hrate]; exact fun hc => Bool.noConfusion hc)]

/-- C7 (amended): pending entries are cleared by hysteresis only in the
no-alert sub-branch, which is reached only when the monitored value is at or
above the *warning trigger*; there, each pending entry is removed exactly when
the value is strictly above that alert-type's clear threshold.  A value
strictly above the critical clear threshold but below the warning trigger
clears nothing; a value exactly at the clear threshold leaves the (non-stale)
entry untouched. -/
theorem hysteresis_clear_amended (st : ManagerState) (inp : CallInput)
    (hrate : (checkRateLimit (cleanupOldRateLimitData st.recent_alerts inp.now)
      inp.machine_id inp.now).1 = true) :
    (Config.RUL_WARNING_TRIGGER ≤ inp.rul_hours →
      Config.RUL_WARNING_CLEAR < inp.rul_hours →
      alookup (checkAndCreateAlerts st inp).2.pending_alerts
        (inp.machine_id, .warningRul) = none) ∧
    (Config.RUL_WARNING_TRIGGER ≤ inp.rul_hours →
      Config.RUL_CRITICAL_CLEAR < inp.rul_hours →
      alookup (checkAndCreateAlerts st inp).2.pending_alerts
        (inp.machine_id, .criticalRul) = none) ∧
    (Config.HEALTH_WARNING_TRIGGER ≤ inp.health_score →
      Config.HEALTH_WARNING_CLEAR < inp.health_score →
      alookup (checkAndCreateAlerts st inp).2.pending_alerts
        (inp.machine_id, .lowHealthWarning) = none) ∧
    (Config.HEALTH_WARNING_TRIGGER ≤ inp.health_score →
      Config.HEALTH_CRITICAL_CLEAR < inp.health_score →
      alookup (checkAndCreateAlerts st inp).2.pending_alerts
        (inp.machine_id, .lowHealthCritical) = none) ∧
    (∀ p, inp.rul_hours = Config.RUL_WARNING_CLEAR →
      alookup st.pending_alerts (inp.machine_id, .warningRul) = some p →
      ¬ (p.last_triggered < inp.now - 120) →
      alookup (checkAndCreateAlerts st inp).2.pending_alerts
        (inp.machine_id, .warningRul) = some p) := by
  rw [checkAndCreate_pass st inp hrate]
  unfold pipelineBranches
  dsimp only
  refine ⟨?_, ?_, ?_, ?_, ?_⟩
  · intro h48 h52
    rw [anomalyBranch_pending_other _ inp _ (by simp),
      healthBranch_pending_other _ inp _ (by simp) (by simp),
      rulBranch_else_pending _ inp h48, if_pos h52]
    split
    · rw [alookup_aerase_ne _ _ _ (by simp)]
      exact alookup_aerase_self _ _
    · exact alookup_aerase_self _ _
  · intro h48 h28
    rw [anomalyBranch_pending_other _ inp _ (by simp),
      healthBranch_pending_other _ inp _ (by simp) (by simp),
      rulBranch_else_pending _ inp h48, if_pos h28]
    exact alookup_aerase_self _ _
  · intro h50 h55
    rw [anomalyBranch_pending_other _ inp _ (by simp),
      healthBranch_else_pending _ inp h50, if_pos h55]
    split
    · rw [alookup_aerase_ne _ _ _ (by simp)]
      exact alookup_aerase_self _ _
    · exact alookup_aerase_self _ _
  · intro h50 h35
    rw [anomalyBranch_pending_other _ inp _ (by simp),
      healthBranch_else_pending _ inp h50, if_pos h35]
    exact alookup_aerase_self _ _
  · intro p h52 hl hstale
    have h48 : Config.RUL_WARNING_TRIGGER ≤ inp.rul_hours := by
      rw [h52]
      unfold Config.RUL_WARNING_TRIGGER Config.RUL_WARNING_CLEAR
      norm_num
    rw [anomalyBranch_pending_other _ inp _ (by simp),
      healthBranch_pending_other _ inp _ (by simp) (by simp),
      rulBranch_else_pending _ inp h48,
      if_neg (show ¬ Config.RUL_WARNING_CLEAR < inp.rul_hours by rw [h52]; exact lt_irrefl _)]
    split
    · rw [alookup_aerase_ne _ _ _ (by simp)]
      exact alookup_filter_keep _ _ _ p hl (by simp [hstale])
    · exact alookup_filter_keep _ _ _ p hl (by simp [hstale])

/-- Pending entry for a strictly-above-critical-clear counterexample. -/
def c7Pending : PendingAlert := ⟨.criticalRul, "critical", 0, 0, 1⟩

/-- Manager state holding one pending `critical_rul` entry for `M-001`. -/
def c7State : ManagerState :=
  ⟨[], [(("M-001", .criticalRul), c7Pending)], [], ⟨[], []⟩⟩

/-- Sample with `rul_hours = 30`, strictly above the critical clear threshold
28 but below the warning trigger 48. -/
def c7Input : CallInput :=
  { now := 10, machine_id := "M-001", sensor_data := {}, rul_hours := 30,
    health_score := 60, is_anomaly := false, anomaly_score := 0 }

theorem rulBranch_warning_pending_other (s : ManagerState) (inp : CallInput)
    (h24 : Config.RUL_CRITICAL_TRIGGER ≤ inp.rul_hours)
    (h48 : inp.rul_hours < Config.RUL_WARNING_TRIGGER) (k : String × AlertType)
    (hk : k ≠ (inp.machine_id, .warningRul)) :
    alookup (rulBranch s inp).2.pending_alerts k = alookup s.pending_alerts k := by
  unfold rulBranch
  rw [if_neg (not_lt.mpr h24), if_pos h48]
  split
  · exact runProcessStep_pending_other s inp.machine_id .warningRul "warning"
      inp.msgRul inp.idRul inp.now k hk
  · rfl

/-- C7 counterexample: a sample with monitored RUL strictly above the
critical clear threshold (30 > 28) does not remove the pending
`critical_rul` entry, because the clearing code only runs when the value is
at or above the warning trigger (48). -/
theorem hysteresis_clear_counterexample :
    Config.RUL_CRITICAL_CLEAR < c7Input.rul_hours ∧
    c7Input.rul_hours < Config.RUL_WARNING_TRIGGER ∧
    alookup (checkAndCreateAlerts c7State c7Input).2.pending_alerts
      ("M-001", .criticalRul) = some c7Pending := by
  refine ⟨by norm_num [Config.RUL_CRITICAL_CLEAR, c7Input],
    by norm_num [Config.RUL_WARNING_TRIGGER, c7Input], ?_⟩
  have hrate : (checkRateLimit (cleanupOldRateLimitData c7State.recent_alerts c7Input.now)
      c7Input.machine_id c7Input.now).1 = true := by
    norm_num [checkRateLimit, cleanupOldRateLimitData, alookup, c7State, c7Input,
      Config.MAX_ALERTS_PER_MACHINE_PER_MINUTE]
  rw [checkAndCreate_pass c7State c7Input hrate]
  unfold pipelineBranches
  dsimp only
  rw [anomalyBranch_pending_other _ c7Input _ (by simp [c7Input]),
    healthBranch_pending_other _ c7Input _ (by simp [c7Input]) (by simp [c7Input]),
    rulBranch_warning_pending_other _ c7Input
      (by norm_num [Config.RUL_CRITICAL_TRIGGER, c7Input])
      (by norm_num [Config.RUL_WARNING_TRIGGER, c7Input]) _ (by simp [c7Input])]
  norm_num [cleanupOldPendingAlerts, c7State, c7Pending, c7Input, alookup]

/-- Healthy sample (`rul = 60 ≥ 48`, strictly above the warning clear 52). -/
def c7WitInput : CallInput :=
  { now := 10, machine_id := "M-001", sensor_data := {}, rul_hours := 60,
    health_score := 60, is_anomaly := false, anomaly_score := 0 }

theorem hysteresis_clear_amended_witness :
    alookup (checkAndCreateAlerts c7State c7WitInput).2.pending_alerts
      ("M-001", .warningRul) = none := by
  have h := hysteresis_clear_amended c7State c7WitInput (by
    norm_num [checkRateLimit, cleanupOldRateLimitData, alookup, c7State, c7WitInput,
      Config.MAX_ALERTS_PER_MACHINE_PER_MINUTE])
  exact h.1 (by norm_num [Config.RUL_WARNING_TRIGGER, c7WitInput])
    (by norm_num [Config.RUL_WARNING_CLEAR, c7WitInput])

/-!
## Metrics tracking (`metrics_tracker.py`, `MetricsTracker.record_failure`)
-/

inductive PredictionOutcome where
  | TRUE_POSITIVE
  | FALSE_POSITIVE
  | TRUE_NEGATIVE
  | FALSE_NEGATIVE
  | PENDING
deriving DecidableEq, Repr

structure PredictionRecord where
  prediction_id : String
  machine_id : String
  predicted_at : ℚ
  predicted_failure_time : ℚ
  predicted_ttf_hours : ℚ
  health_score_at_prediction : ℚ
  anomaly_score_at_prediction : ℚ
  confidence : ℚ
  outcome : PredictionOutcome := .PENDING
  actual_failure_time : Option ℚ := none
  lead_time_hours : Option ℚ := none
  resolution_notes : String := ""
deriving DecidableEq, Repr

structure FailureEvent where
  event_id : String
  machine_id : String
  occurred_at : ℚ
  was_predicted : Bool
  prediction_id : Option String := none
  lead_time_hours : Option ℚ := none
  event_type : String := "failure"
deriving DecidableEq, Repr

/-- In-memory state of `MetricsTracker` (the fields `record_failure` uses). -/
structure MetricsTracker where
  predictions : List (String × PredictionRecord)
  failures : List (String × FailureEvent)
  failure_counter : ℕ
  prediction_window_hours : ℚ := 48
deriving DecidableEq, Repr

/-- Hours elapsed since a prediction (`(now - predicted_at) / 3600`). -/
def predDiff (now : ℚ) (q : PredictionRecord) : ℚ := (now - q.predicted_at) / 3600

/-- A prediction the matching loop of `record_failure` may select. -/
def predEligible (machine : String) (now window : ℚ) (q : PredictionRecord) : Prop :=
  q.machine_id = machine ∧ q.outcome = .PENDING ∧
    0 < predDiff now q ∧ predDiff now q ≤ window

instance (machine : String) (now window : ℚ) (q : PredictionRecord) :
    Decidable (predEligible machine now window q) := by
  unfold predEligible
  infer_instance

/-- One iteration of the matching loop in `record_failure`. -/
def matchStep (machine : String) (now window : ℚ)
    (best : Option (PredictionRecord × ℚ)) (pred : PredictionRecord) :
    Option (PredictionRecord × ℚ) :=
  if pred.machine_id ≠ machine then best
  else if pred.outcome ≠ .PENDING then best
  else
    let time_diff := (now - pred.predicted_at) / 3600
    if 0 < time_diff ∧ time_diff ≤ window then
      match best with
      | none => some (pred, time_diff)
      | some b => if time_diff < b.2 then some (pred, time_diff) else best
    else best

/-- The matching loop of `record_failure` over the insertion-ordered
prediction records. -/
def findMatchingPrediction (preds : List PredictionRecord) (machine : String)
    (now window : ℚ) : Option (PredictionRecord × ℚ) :=
  preds.foldl (matchStep machine now window) none

/-- Update applied to the matched prediction by `record_failure`. -/
def markTruePositive (now bd : ℚ) (q : PredictionRecord) : PredictionRecord :=
  { q with outcome := .TRUE_POSITIVE, actual_failure_time := some now,
           lead_time_hours := some bd }

/-- Embedding of `MetricsTracker.record_failure`.  The `%04d` zero padding of
the generated event id is not modelled (plain decimal instead). -/
def recordFailure (tr : MetricsTracker) (machine event_type : String) (now : ℚ) :
    String × MetricsTracker :=
  let failure_counter2 := tr.failure_counter + 1
  let failure_id := "FAIL-" ++ toString failure_counter2
  let m := findMatchingPrediction (tr.predictions.map Prod.snd) machine now
    tr.prediction_window_hours
  let failure : FailureEvent :=
    ⟨failure_id, machine, now, m.isSome, m.map (fun p => p.1.prediction_id),
      m.map (fun p => p.2), event_type⟩
  let preds2 := match m with
    | none => tr.predictions
    | some (mp, bd) => tr.predictions.map (fun q =>
        if q.2.prediction_id = mp.prediction_id then (q.1, markTruePositive now bd q.2)
        else q)
  let tr2 : MetricsTracker :=
    { tr with
      predictions := preds2,
      failures := tr.failures ++ [(failure_id, failure)],
      failure_counter := failure_counter2 }
  (failure_id, tr2)

/-- Fold invariant of the matching loop: the accumulator is `none` only if no
eligible prediction has been seen, and otherwise holds an eligible prediction
with the minimal time difference seen so far. -/
def MatchInv (machine : String) (now window : ℚ) (processed : List PredictionRecord)
    (best : Option (PredictionRecord × ℚ)) : Prop :=
  match best with
  | none => ∀ q ∈ processed, ¬ predEligible machine now window q
  | some (mp, bd) => predEligible machine now window mp ∧ mp ∈ processed ∧
      bd = predDiff now mp ∧
      ∀ q ∈ processed, predEligible machine now window q → bd ≤ predDiff now q

theorem matchStep_inv (machine : String) (now window : ℚ)
    (processed : List PredictionRecord) (best : Option (PredictionRecord × ℚ))
    (pred : PredictionRecord) (h : MatchInv machine now window processed best) :
    MatchInv machine now window (processed ++ [pred])
      (matchStep machine now window best pred) := by
  unfold matchStep
  by_cases h1 : pred.machine_id ≠ machine
  · rw [if_pos h1]
    cases best with
    | none =>
        intro q hq
        rcases List.mem_append.1 hq with hq | hq
        · exact h q hq
        · rw [List.mem_singleton] at hq
          subst hq
          exact fun he => h1 he.1
    | some p =>
        obtain ⟨he, hm, hbd, hmin⟩ := h
        refine ⟨he, List.mem_append_left _ hm, hbd, ?_⟩
        intro q hq hqe
        rcases List.mem_append.1 hq with hq | hq
        · exact hmin q hq hqe
        · rw [List.mem_singleton] at hq
          subst hq
          exact absurd hqe.1 h1
  · rw [if_neg h1]
    rw [not_not] at h1
    by_cases h2 : pred.outcome ≠ .PENDING
    · rw [if_pos h2]
      cases best with
      | none =>
          intro q hq
          rcases List.mem_append.1 hq with hq | hq
          · exact h q hq
          · rw [List.mem_singleton] at hq
            subst hq
            exact fun he => h2 he.2.1
      | some p =>
          obtain ⟨he, hm, hbd, hmin⟩ := h
          refine ⟨he, List.mem_append_left _ hm, hbd, ?_⟩
          intro q hq hqe
          rcases List.mem_append.1 hq with hq | hq
          · exact hmin q hq hqe
          · rw [List.mem_singleton] at hq
            subst hq
            exact absurd hqe.2.1 h2
    · rw [if_neg h2]
      rw [not_not] at h2
      dsimp only
      by_cases h3 : 0 < (now - pred.predicted_at) / 3600 ∧
          (now - pred.predicted_at) / 3600 ≤ window
      · rw [if_pos h3]
        have hpe : predEligible machine now window pred := ⟨h1, h2, h3.1, h3.2⟩
        cases best with
        | none =>
            refine ⟨hpe, List.mem_append_right _ (List.mem_singleton.2 rfl), rfl, ?_⟩
            intro q hq hqe
            rcases List.mem_append.1 hq with hq | hq
            · exact absurd hqe (h q hq)
            · rw [List.mem_singleton] at hq
              subst hq
              exact le_refl _
        | some p =>
            obtain ⟨he, hm, hbd, hmin⟩ := h
            dsimp only
            by_cases h4 : (now - pred.predicted_at) / 3600 < p.2
            · rw [if_pos h4]
              refine ⟨hpe, List.mem_append_right _ (List.mem_singleton.2 rfl), rfl, ?_⟩
              intro q hq hqe
              rcases List.mem_append.1 hq with hq | hq
              · exact le_trans (le_of_lt h4) (hmin q hq hqe)
              · rw [List.mem_singleton] at hq
                subst hq
                exact le_refl _
            · rw [if_neg h4]
              refine ⟨he, List.mem_append_left _ hm, hbd, ?_⟩
              intro q hq hqe
              rcases List.mem_append.1 hq with hq | hq
              · exact hmin q hq hqe
              · rw [List.mem_singleton] at hq
                subst hq
                exact not_lt.1 h4
      · rw [if_neg h3]
        cases best with
        | none =>
            intro q hq
            rcases List.mem_append.1 hq with hq | hq
            · exact h q hq
            · rw [List.mem_singleton] at hq
              subst hq
              exact fun he => h3 ⟨he.2.2.1, he.2.2.2⟩
        | some p =>
            obtain ⟨he, hm, hbd, hmin⟩ := h
            refine ⟨he, List.mem_append_left _ hm, hbd, ?_⟩
            intro q hq hqe
            rcases List.mem_append.1 hq with hq | hq
            · exact hmin q hq hqe
            · rw [List.mem_singleton] at hq
              subst hq
              exact absurd ⟨hqe.2.2.1, hqe.2.2.2⟩ h3

theorem foldl_matchStep_inv (machine : String) (now window : ℚ)
    (l : List PredictionRecord) :
    ∀ processed best, MatchInv machine now window processed best →
      MatchInv machine now window (processed ++ l)
        (l.foldl (matchStep machine now window) best) := by
  induction l with
  | nil => intro processed best h; simpa using h
  | cons p t ih =>
      intro processed best h
      have hstep := matchStep_inv machine now window processed best p h
      have := ih (processed ++ [p]) _ hstep
      rw [List.append_assoc] at this
      simpa using this

theorem findMatchingPrediction_spec (preds : List PredictionRecord) (machine : String)
    (now window : ℚ) :
    MatchInv machine now window preds (findMatchingPrediction preds machine now window) := by
  have h := foldl_matchStep_inv machine now window preds [] none (by
    intro q hq
    cases hq)
  simpa using h

/-- C8 (amended): `record_failure` matches the *most recent* `PENDING`
prediction for the machine — the eligible one minimizing `now − predicted_at`
over `0 < now − predicted_at ≤ PREDICTION_WINDOW_HOURS` — marks it
`TRUE_POSITIVE` with `lead_time_hours` equal to that minimal difference, and
records the failure as predicted; when no prediction is eligible the failure
event is recorded as unpredicted (`was_predicted = False`, counted as a
false negative by `calculate_metrics`) and predictions are unchanged. -/
theorem recordFailure_spec (tr : MetricsTracker) (machine etype : String) (now : ℚ) :
    (∀ mp bd,
      findMatchingPrediction (tr.predictions.map Prod.snd) machine now
        tr.prediction_window_hours = some (mp, bd) →
      (predEligible machine now tr.prediction_window_hours mp ∧
        mp ∈ tr.predictions.map Prod.snd ∧
        bd = predDiff now mp ∧
        (∀ q ∈ tr.predictions.map Prod.snd,
          predEligible machine now tr.prediction_window_hours q → bd ≤ predDiff now q) ∧
        (∀ kr ∈ (recordFailure tr machine etype now).2.predictions,
          kr.2.prediction_id = mp.prediction_id →
          kr.2.outcome = .TRUE_POSITIVE ∧ kr.2.lead_time_hours = some bd) ∧
        (∃ fid fe, (recordFailure tr machine etype now).2.failures =
            tr.failures ++ [(fid, fe)] ∧ fe.was_predicted = true ∧
          fe.lead_time_hours = some bd))) ∧
    (findMatchingPrediction (tr.predictions.map Prod.snd) machine now
        tr.prediction_window_hours = none →
      ((∀ q ∈ tr.predictions.map Prod.snd,
          ¬ predEligible machine now tr.prediction_window_hours q) ∧
        (recordFailure tr machine etype now).2.predictions = tr.predictions ∧
        (∃ fid fe, (recordFailure tr machine etype now).2.failures =
            tr.failures ++ [(fid, fe)] ∧ fe.was_predicted = false))) := by
  constructor
  · intro mp bd hfind
    have hspec := findMatchingPrediction_spec (tr.predictions.map Prod.snd) machine now
      tr.prediction_window_hours
    rw [hfind] at hspec
    obtain ⟨he, hm, hbd, hmin⟩ := hspec
    refine ⟨he, hm, hbd, hmin, ?_, ?_⟩
    · intro kr hkr hid
      unfold recordFailure at hkr
      dsimp only at hkr
      rw [hfind] at hkr
      dsimp only at hkr
      obtain ⟨q, hq, hqe⟩ := List.mem_map.1 hkr
      by_cases hqid : q.2.prediction_id = mp.prediction_id
      · rw [if_pos hqid] at hqe
        rw [← hqe]
        exact ⟨rfl, rfl⟩
      · rw [if_neg hqid] at hqe
        rw [← hqe] at hid
        exact absurd hid hqid
    · refine ⟨"FAIL-" ++ toString (tr.failure_counter + 1),
        ⟨"FAIL-" ++ toString (tr.failure_counter + 1), machine, now, true,
          some mp.prediction_id, some bd, etype⟩, ?_, rfl, rfl⟩
      show (recordFailure tr machine etype now).2.failures = _
      unfold recordFailure
      dsimp only
      rw [hfind]
      rfl
  · intro hnone
    have hspec := findMatchingPrediction_spec (tr.predictions.map Prod.snd) machine now
      tr.prediction_window_hours
    rw [hnone] at hspec
    refine ⟨hspec, ?_, ?_⟩
    · unfold recordFailure
      dsimp only
      rw [hnone]
    · refine ⟨"FAIL-" ++ toString (tr.failure_counter + 1),
        ⟨"FAIL-" ++ toString (tr.failure_counter + 1), machine, now, false,
          none, none, etype⟩, ?_, rfl⟩
      show (recordFailure tr machine etype now).2.failures = _
      unfold recordFailure
      dsimp only
      rw [hnone]
      rfl

/-- Earlier prediction (made at time 0, 20 hours before the failure). -/
def c8P1 : PredictionRecord :=
  { prediction_id := "PRED-0001", machine_id := "M-001", predicted_at := 0,
    predicted_failure_time := 86400, predicted_ttf_hours := 24,
    health_score_at_prediction := 50, anomaly_score_at_prediction := 1,
    confidence := 8/10 }

/-- Later prediction (made 10 hours before the failure). -/
def c8P2 : PredictionRecord :=
  { prediction_id := "PRED-0002", machine_id := "M-001", predicted_at := 36000,
    predicted_failure_time := 122400, predicted_ttf_hours := 24,
    health_score_at_prediction := 45, anomaly_score_at_prediction := 1,
    confidence := 8/10 }

/-- Tracker holding the two pending predictions in insertion order. -/
def c8Tracker : MetricsTracker :=
  ⟨[("PRED-0001", c8P1), ("PRED-0002", c8P2)], [], 0, 48⟩

/-- C8 counterexample: with two pending eligible predictions, the failure at
`now = 72000 s` is matched to the *most recent* one (`PRED-0002`, lead 10 h);
the earliest one (`PRED-0001`, lead 20 h) stays `PENDING`, contradicting the
claim that the earliest pending prediction is marked `TRUE_POSITIVE`. -/
theorem recordFailure_earliest_counterexample :
    predEligible "M-001" 72000 48 c8P1 ∧ predEligible "M-001" 72000 48 c8P2 ∧
    c8P1.predicted_at < c8P2.predicted_at ∧
    (alookup (recordFailure c8Tracker "M-001" "failure" 72000).2.predictions
      "PRED-0001").map (fun p => p.outcome) = some .PENDING ∧
    (alookup (recordFailure c8Tracker "M-001" "failure" 72000).2.predictions
      "PRED-0002").map (fun p => p.outcome) = some .TRUE_POSITIVE := by
  refine ⟨?_, ?_, by norm_num [c8P1, c8P2], ?_, ?_⟩
  · exact ⟨rfl, rfl, by norm_num [predDiff, c8P1], by norm_num [predDiff, c8P1]⟩
  · exact ⟨rfl, rfl, by norm_num [predDiff, c8P2], by norm_num [predDiff, c8P2]⟩
  · norm_num +decide [recordFailure, findMatchingPrediction, matchStep, markTruePositive,
      c8Tracker, c8P1, c8P2, alookup]
  · norm_num +decide [recordFailure, findMatchingPrediction, matchStep, markTruePositive,
      c8Tracker, c8P1, c8P2, alookup]

/-!
### Rate limiting (claim C3): what each pipeline stage does to the rate buckets
-/

theorem processAlert_recent (pending : List ((String × AlertType) × PendingAlert))
    (db : Store) (recent : List (String × List ℚ)) (machine : String) (atype : AlertType)
    (sev msg nid : String) (now : ℚ) : ∀ m,
    ((alookup (processAlertWithPersistence pending db recent machine atype sev msg nid
        now).recent m).getD []) =
      ((alookup recent m).getD []) ++
        (if m = machine then
          (match (processAlertWithPersistence pending db recent machine atype sev msg nid
            now).alert_id with
          | some _ => [now]
          | none => [])
        else []) := by
  intro m
  unfold processAlertWithPersistence
  dsimp only
  cases hl : alookup pending (machine, atype) with
  | none => simp
  | some p =>
      dsimp only
      by_cases hp : (p.update now).isPersistent (persistenceWindow atype) = true
      · rw [if_pos hp]
        unfold managerCreateAlertIfNew
        by_cases hdup : checkDuplicateAlert db machine atype = true
        · rw [if_pos hdup]
          simp
        · rw [if_neg hdup]
          dsimp only
          by_cases hm : m = machine
          · subst hm
            rw [alookup_aupsert_self]
            simp
          · rw [alookup_aupsert_ne _ _ _ _ hm]
            simp [hm]
      · rw [if_neg hp]
        simp

theorem runProcessStep_recent (s : ManagerState) (machine : String) (atype : AlertType)
    (sev msg nid : String) (now : ℚ) : ∀ m,
    ((alookup (runProcessStep s machine atype sev msg nid now).2.recent_alerts m).getD []) =
      ((alookup s.recent_alerts m).getD []) ++
        (if m = machine then
          List.replicate (runProcessStep s machine atype sev msg nid now).1.length now
        else []) := by
  intro m
  unfold runProcessStep
  dsimp only
  have h := processAlert_recent s.pending_alerts s.db s.recent_alerts machine atype
    sev msg nid now m
  cases ha : (processAlertWithPersistence s.pending_alerts s.db s.recent_alerts machine
      atype sev msg nid now).alert_id with
  | none =>
      rw [ha] at h
      simpa using h
  | some i =>
      rw [ha] at h
      simpa using h

theorem runProcessStep_len (s : ManagerState) (machine : String) (atype : AlertType)
    (sev msg nid : String) (now : ℚ) :
    (runProcessStep s machine atype sev msg nid now).1.length ≤ 1 := by
  unfold runProcessStep
  dsimp only
  cases (processAlertWithPersistence s.pending_alerts s.db s.recent_alerts machine atype
      sev msg nid now).alert_id with
  | none => simp
  | some i => simp

theorem branch_recent_triv (s : ManagerState) (inp : CallInput) (m : String) :
    ((alookup s.recent_alerts m).getD []) =
      ((alookup s.recent_alerts m).getD []) ++
        (if m = inp.machine_id then List.replicate ([] : List String).length inp.now
        else []) := by
  simp

theorem rulBranch_recent (s : ManagerState) (inp : CallInput) : ∀ m,
    ((alookup (rulBranch s inp).2.recent_alerts m).getD []) =
      ((alookup s.recent_alerts m).getD []) ++
        (if m = inp.machine_id then
          List.replicate (rulBranch s inp).1.length inp.now
        else []) := by
  intro m
  unfold rulBranch
  split
  · split
    · exact runProcessStep_recent s inp.machine_id .criticalRul "critical" inp.msgRul
        inp.idRul inp.now m
    · exact branch_recent_triv s inp m
  · split
    · split
      · exact runProcessStep_recent s inp.machine_id .warningRul "warning" inp.msgRul
          inp.idRul inp.now m
      · exact branch_recent_triv s inp m
    · exact branch_recent_triv s inp m

theorem healthBranch_recent (s : ManagerState) (inp : CallInput) : ∀ m,
    ((alookup (healthBranch s inp).2.recent_alerts m).getD []) =
      ((alookup s.recent_alerts m).getD []) ++
        (if m = inp.machine_id then
          List.replicate (healthBranch s inp).1.length inp.now
        else []) := by
  intro m
  unfold healthBranch
  split
  · split
    · exact runProcessStep_recent s inp.machine_id .lowHealthCritical "critical"
        inp.msgHealth inp.idHealth inp.now m
    · exact branch_recent_triv s inp m
  · split
    · split
      · exact runProcessStep_recent s inp.machine_id .lowHealthWarning "warning"
          inp.msgHealth inp.idHealth inp.now m
      · exact branch_recent_triv s inp m
    · exact branch_recent_triv s inp m

theorem anomalyBranch_recent (s : ManagerState) (inp : CallInput) : ∀ m,
    ((alookup (anomalyBranch s inp).2.recent_alerts m).getD []) =
      ((alookup s.recent_alerts m).getD []) ++
        (if m = inp.machine_id then
          List.replicate (anomalyBranch s inp).1.length inp.now
        else []) := by
  intro m
  unfold anomalyBranch
  split
  · split
    · exact runProcessStep_recent s inp.machine_id .anomalyDetected _
        inp.msgAnomaly inp.idAnomaly inp.now m
    · exact branch_recent_triv s inp m
  · exact branch_recent_triv s inp m

theorem rulBranch_len (s : ManagerState) (inp : CallInput) :
    (rulBranch s inp).1.length ≤ 1 := by
  unfold rulBranch
  split
  · split
    · exact runProcessStep_len s inp.machine_id .criticalRul "critical" inp.msgRul
        inp.idRul inp.now
    · simp
  · split
    · split
      · exact runProcessStep_len s inp.machine_id .warningRul "warning" inp.msgRul
          inp.idRul inp.now
      · simp
    · simp

theorem healthBranch_len (s : ManagerState) (inp : CallInput) :
    (healthBranch s inp).1.length ≤ 1 := by
  unfold healthBranch
  split
  · split
    · exact runProcessStep_len s inp.machine_id .lowHealthCritical "critical"
        inp.msgHealth inp.idHealth inp.now
    · simp
  · split
    · split
      · exact runProcessStep_len s inp.machine_id .lowHealthWarning "warning"
          inp.msgHealth inp.idHealth inp.now
      · simp
    · simp

theorem anomalyBranch_len (s : ManagerState) (inp : CallInput) :
    (anomalyBranch s inp).1.length ≤ 1 := by
  unfold anomalyBranch
  split
  · split
    · exact runProcessStep_len s inp.machine_id .anomalyDetected _
        inp.msgAnomaly inp.idAnomaly inp.now
    · simp
  · simp

theorem pipelineBranches_len (s : ManagerState) (inp : CallInput) :
    (pipelineBranches s inp).1.length ≤ 3 := by
  unfold pipelineBranches
  dsimp only
  rw [List.length_append, List.length_append]
  have h1 := rulBranch_len s inp
  have h2 := healthBranch_len (rulBranch s inp).2 inp
  have h3 := anomalyBranch_len (healthBranch (rulBranch s inp).2 inp).2 inp
  omega

theorem pipelineBranches_recent (s : ManagerState) (inp : CallInput) : ∀ m,
    ((alookup (pipelineBranches s inp).2.recent_alerts m).getD []) =
      ((alookup s.recent_alerts m).getD []) ++
        (if m = inp.machine_id then
          List.replicate (pipelineBranches s inp).1.length inp.now
        else []) := by
  intro m
  unfold pipelineBranches
  dsimp only
  rw [anomalyBranch_recent (healthBranch (rulBranch s inp).2 inp).2 inp m,
    healthBranch_recent (rulBranch s inp).2 inp m, rulBranch_recent s inp m]
  rw [List.length_append, List.length_append]
  by_cases hm : m = inp.machine_id
  · rw [if_pos hm, if_pos hm, if_pos hm, if_pos hm]
    rw [List.append_assoc, List.append_assoc]
    congr 1
    rw [List.replicate_add, List.replicate_add]
  · rw [if_neg hm, if_neg hm, if_neg hm, if_neg hm]
    simp

theorem length_filter_mono {α : Type} (l : List α) (p q : α → Bool)
    (h : ∀ x ∈ l, p x = true → q x = true) :
    (l.filter p).length ≤ (l.filter q).length := by
  induction l with
  | nil => simp
  | cons a t ih =>
      have ht : ∀ x ∈ t, p x = true → q x = true := fun x hx => h x (by simp [hx])
      rw [List.filter_cons, List.filter_cons]
      by_cases hp : p a = true
      · rw [if_pos hp, if_pos (h a (by simp) hp)]
        simpa using ih ht
      · rw [if_neg hp]
        split
        · exact le_trans (ih ht) (by simp)
        · exact ih ht

theorem filter_filter_cut (l : List ℚ) (a b : ℚ) (hab : a ≤ b) :
    (l.filter (fun t => decide (a < t))).filter (fun t => decide (b < t)) =
      l.filter (fun t => decide (b < t)) := by
  rw [List.filter_filter]
  congr 1
  funext t
  by_cases hb : b < t
  · have ha : a < t := lt_of_le_of_lt hab hb
    simp [ha, hb]
  · simp [hb]

theorem alookup_none_of_not_mem {α β : Type} [DecidableEq α] (l : List (α × β)) (k : α)
    (h : k ∉ l.map Prod.fst) : alookup l k = none := by
  unfold alookup
  induction l with
  | nil => rfl
  | cons p t ih =>
      rw [List.map_cons, List.mem_cons] at h
      push_neg at h
      rw [List.find?_cons_of_neg _ (by simp; exact fun he => h.1 he.symm)]
      exact ih h.2

theorem cleanup_keys_sub (recent : List (String × List ℚ)) (now : ℚ) (k : String)
    (hk : k ∈ (cleanupOldRateLimitData recent now).map Prod.fst) :
    k ∈ recent.map Prod.fst := by
  unfold cleanupOldRateLimitData at hk
  simp only [List.mem_map, List.mem_filter] at hk ⊢
  obtain ⟨p, ⟨⟨q, hq, hqe⟩, -⟩, hpk⟩ := hk
  exact ⟨q, hq, by rw [← hpk, ← hqe]⟩

theorem cleanup_recent_lookup (recent : List (String × List ℚ)) (now : ℚ) :
    ((recent.map Prod.fst).Nodup) → ∀ m,
    ((alookup (cleanupOldRateLimitData recent now) m).getD []) =
      (((alookup recent m).getD []).filter (fun t => decide (now - 60 < t))) := by
  induction recent with
  | nil => intro _ m; simp [alookup, cleanupOldRateLimitData]
  | cons p t ih =>
      intro hnd m
      have hp : p.1 ∉ t.map Prod.fst := by
        rw [List.map_cons, List.nodup_cons] at hnd
        exact hnd.1
      have ht : (t.map Prod.fst).Nodup := by
        rw [List.map_cons, List.nodup_cons] at hnd
        exact hnd.2
      unfold cleanupOldRateLimitData
      rw [List.map_cons, List.filter_cons]
      by_cases hm : p.1 = m
      · have hlk : (alookup (p :: t) m).getD [] = p.2 := by
          unfold alookup
          rw [List.find?_cons_of_pos _ (by simp [hm])]
          rfl
        rw [hlk]
        split
        · next hkeep =>
            unfold alookup
            rw [List.find?_cons_of_pos _ (by simp [hm])]
            rfl
        · next hdrop =>
            have hempty : p.2.filter (fun x => decide (now - 60 < x)) = [] := by
              simpa using hdrop
            rw [hempty]
            have hnm : m ∉ (cleanupOldRateLimitData t now).map Prod.fst := by
              intro hmem
              exact hp (hm ▸ cleanup_keys_sub t now m hmem)
            have := alookup_none_of_not_mem (cleanupOldRateLimitData t now) m hnm
            unfold cleanupOldRateLimitData at this
            rw [this]
            rfl
      · have hlk : alookup (p :: t) m = alookup t m := by
          unfold alookup
          rw [List.find?_cons_of_neg _ (by simp [hm])]
        rw [hlk]
        have hrec := ih ht m
        unfold cleanupOldRateLimitData at hrec
        split
        · unfold alookup
          rw [List.find?_cons_of_neg _ (by simp [hm])]
          exact hrec
        · exact hrec

theorem cleanup_keys_nodup (recent : List (String × List ℚ)) (now : ℚ)
    (hnd : (recent.map Prod.fst).Nodup) :
    ((cleanupOldRateLimitData recent now).map Prod.fst).Nodup := by
  unfold cleanupOldRateLimitData
  refine List.Nodup.sublist ((List.filter_sublist _).map _) ?_
  rw [List.map_map]
  exact hnd

theorem aupsert_keys_nodup {α β : Type} [DecidableEq α] (l : List (α × β)) (k : α) (v : β)
    (hnd : (l.map Prod.fst).Nodup) : ((aupsert l k v).map Prod.fst).Nodup := by
  unfold aupsert
  by_cases hs : (l.find? (fun p => decide (p.1 = k))).isSome
  · rw [if_pos hs]
    have hkeys : ((l.map (fun p => if p.1 = k then (k, v) else p)).map Prod.fst) =
        l.map Prod.fst := by
      rw [List.map_map]
      apply List.map_congr_left
      intro p _
      show (if p.1 = k then (k, v) else p).1 = p.1
      by_cases hpk : p.1 = k
      · rw [if_pos hpk]
        exact hpk.symm
      · rw [if_neg hpk]
    rw [hkeys]
    exact hnd
  · rw [if_neg hs]
    have hk : k ∉ l.map Prod.fst := by
      intro hmem
      obtain ⟨p, hp, hpk⟩ := List.mem_map.1 hmem
      have hnone : l.find? (fun p => decide (p.1 = k)) = none :=
        Option.not_isSome_iff_eq_none.1 hs
      have := List.find?_eq_none.1 hnone p hp
      simp [hpk] at this
    rw [List.map_append]
    simp [List.nodup_append, hnd, hk]

theorem processAlert_recent_nodup (pending : List ((String × AlertType) × PendingAlert))
    (db : Store) (recent : List (String × List ℚ)) (machine : String) (atype : AlertType)
    (sev msg nid : String) (now : ℚ) (hnd : (recent.map Prod.fst).Nodup) :
    (((processAlertWithPersistence pending db recent machine atype sev msg nid
        now).recent).map Prod.fst).Nodup := by
  unfold processAlertWithPersistence
  dsimp only
  cases hl : alookup pending (machine, atype) with
  | none => exact hnd
  | some p =>
      dsimp only
      by_cases hp : (p.update now).isPersistent (persistenceWindow atype) = true
      · rw [if_pos hp]
        unfold managerCreateAlertIfNew
        by_cases hdup : checkDuplicateAlert db machine atype = true
        · rw [if_pos hdup]
          exact hnd
        · rw [if_neg hdup]
          exact aupsert_keys_nodup recent machine _ hnd
      · rw [if_neg hp]
        exact hnd

theorem runProcessStep_recent_nodup (s : ManagerState) (machine : String)
    (atype : AlertType) (sev msg nid : String) (now : ℚ)
    (hnd : (s.recent_alerts.map Prod.fst).Nodup) :
    (((runProcessStep s machine atype sev msg nid now).2.recent_alerts).map Prod.fst).Nodup := by
  unfold runProcessStep
  dsimp only
  exact processAlert_recent_nodup s.pending_alerts s.db s.recent_alerts machine atype
    sev msg nid now hnd

theorem rulBranch_recent_nodup (s : ManagerState) (inp : CallInput)
    (hnd : (s.recent_alerts.map Prod.fst).Nodup) :
    (((rulBranch s inp).2.recent_alerts).map Prod.fst).Nodup := by
  unfold rulBranch
  split
  · split
    · exact runProcessStep_recent_nodup s inp.machine_id .criticalRul "critical"
        inp.msgRul inp.idRul inp.now hnd
    · exact hnd
  · split
    · split
      · exact runProcessStep_recent_nodup s inp.machine_id .warningRul "warning"
          inp.msgRul inp.idRul inp.now hnd
      · exact hnd
    · exact hnd

theorem healthBranch_recent_nodup (s : ManagerState) (inp : CallInput)
    (hnd : (s.recent_alerts.map Prod.fst).Nodup) :
    (((healthBranch s inp).2.recent_alerts).map Prod.fst).Nodup := by
  unfold healthBranch
  split
  · split
    · exact runProcessStep_recent_nodup s inp.machine_id .lowHealthCritical "critical"
        inp.msgHealth inp.idHealth inp.now hnd
    · exact hnd
  · split
    · split
      · exact runProcessStep_recent_nodup s inp.machine_id .lowHealthWarning "warning"
          inp.msgHealth inp.idHealth inp.now hnd
      · exact hnd
    · exact hnd

theorem anomalyBranch_recent_nodup (s : ManagerState) (inp : CallInput)
    (hnd : (s.recent_alerts.map Prod.fst).Nodup) :
    (((anomalyBranch s inp).2.recent_alerts).map Prod.fst).Nodup := by
  unfold anomalyBranch
  split
  · split
    · exact runProcessStep_recent_nodup s inp.machine_id .anomalyDetected _
        inp.msgAnomaly inp.idAnomaly inp.now hnd
    · exact hnd
  · exact hnd

theorem pipelineBranches_recent_nodup (s : ManagerState) (inp : CallInput)
    (hnd : (s.recent_alerts.map Prod.fst).Nodup) :
    (((pipelineBranches s inp).2.recent_alerts).map Prod.fst).Nodup := by
  unfold pipelineBranches
  dsimp only
  exact anomalyBranch_recent_nodup _ inp (healthBranch_recent_nodup _ inp
    (rulBranch_recent_nodup s inp hnd))

/-- Ghost invariant tying `recent_alerts` to the full per-machine creation log:
after a call at time `tprev` each bucket holds exactly the log entries strictly
newer than `tprev - 60`, and the bucket keys are distinct. -/
def RecentInv (st : ManagerState) (log : String → List ℚ) (tprev : ℚ) : Prop :=
  (st.recent_alerts.map Prod.fst).Nodup ∧
  ∀ m, ((alookup st.recent_alerts m).getD []) =
    (log m).filter (fun t => decide (tprev - 60 < t))

theorem checkAndCreate_step (st : ManagerState) (inp : CallInput) (log : String → List ℚ)
    (tprev : ℚ) (hinv : RecentInv st log tprev) (hle : tprev ≤ inp.now) :
    RecentInv (checkAndCreateAlerts st inp).2
      (fun m => if m = inp.machine_id then
        log m ++ List.replicate (checkAndCreateAlerts st inp).1.length inp.now else log m)
      inp.now ∧
    (checkAndCreateAlerts st inp).1.length ≤ 3 ∧
    (0 < (checkAndCreateAlerts st inp).1.length →
      ((log inp.machine_id).filter (fun t => decide (inp.now - 60 < t))).length <
        Config.MAX_ALERTS_PER_MACHINE_PER_MINUTE) := by
  obtain ⟨hnd, hlook⟩ := hinv
  have hnd0 : ((cleanupOldRateLimitData st.recent_alerts inp.now).map Prod.fst).Nodup :=
    cleanup_keys_nodup _ _ hnd
  have hlook0 : ∀ m,
      ((alookup (cleanupOldRateLimitData st.recent_alerts inp.now) m).getD []) =
        (log m).filter (fun t => decide (inp.now - 60 < t)) := by
    intro m
    rw [cleanup_recent_lookup st.recent_alerts inp.now hnd m, hlook m,
      filter_filter_cut _ _ _ (by linarith)]
  have hpruned : (((alookup (cleanupOldRateLimitData st.recent_alerts inp.now)
        inp.machine_id).getD []).filter (fun t => decide (inp.now - 60 < t))) =
      (log inp.machine_id).filter (fun t => decide (inp.now - 60 < t)) := by
    rw [hlook0, filter_filter_cut _ _ _ le_rfl]
  have hlook1 : ∀ m,
      ((alookup (checkRateLimit (cleanupOldRateLimitData st.recent_alerts inp.now)
          inp.machine_id inp.now).2 m).getD []) =
        (log m).filter (fun t => decide (inp.now - 60 < t)) := by
    intro m
    unfold checkRateLimit
    dsimp only
    by_cases hm : m = inp.machine_id
    · subst hm
      rw [alookup_aupsert_self]
      exact hpruned
    · rw [alookup_aupsert_ne _ _ _ _ hm]
      exact hlook0 m
  have hnd1 : (((checkRateLimit (cleanupOldRateLimitData st.recent_alerts inp.now)
        inp.machine_id inp.now).2).map Prod.fst).Nodup := by
    unfold checkRateLimit
    exact aupsert_keys_nodup _ _ _ hnd0
  by_cases hrate : (checkRateLimit (cleanupOldRateLimitData st.recent_alerts inp.now)
      inp.machine_id inp.now).1 = false
  · have hca : checkAndCreateAlerts st inp =
        ([], { st with
               pending_alerts := cleanupOldPendingAlerts st.pending_alerts inp.now,
               recent_alerts :=
                 (checkRateLimit (cleanupOldRateLimitData st.recent_alerts inp.now)
                   inp.machine_id inp.now).2 }) := by
      unfold checkAndCreateAlerts
      rw [if_pos hrate]
    rw [hca]
    refine ⟨⟨hnd1, ?_⟩, by simp, by simp⟩
    intro m
    simp only [List.length_nil, List.replicate_zero, List.append_nil, ite_self]
    exact hlook1 m
  · have hca : checkAndCreateAlerts st inp =
        pipelineBranches ⟨feedWindows st.windows inp,
          cleanupOldPendingAlerts st.pending_alerts inp.now,
          (checkRateLimit (cleanupOldRateLimitData st.recent_alerts inp.now)
            inp.machine_id inp.now).2, st.db⟩ inp := by
      unfold checkAndCreateAlerts
      rw [if_neg hrate]
    have hcount : ((log inp.machine_id).filter
        (fun t => decide (inp.now - 60 < t))).length <
        Config.MAX_ALERTS_PER_MACHINE_PER_MINUTE := by
      have htrue : (checkRateLimit (cleanupOldRateLimitData st.recent_alerts inp.now)
          inp.machine_id inp.now).1 = true := by
        cases hb : (checkRateLimit (cleanupOldRateLimitData st.recent_alerts inp.now)
            inp.machine_id inp.now).1
        · exact absurd hb hrate
        · rfl
      unfold checkRateLimit at htrue
      dsimp only at htrue
      rw [decide_eq_true_iff] at htrue
      rw [← hpruned]
      exact htrue
    rw [hca]
    refine ⟨⟨pipelineBranches_recent_nodup _ inp hnd1, ?_⟩,
      pipelineBranches_len _ inp, fun _ => hcount⟩
    intro m
    rw [pipelineBranches_recent _ inp m]
    show ((alookup (checkRateLimit (cleanupOldRateLimitData st.recent_alerts inp.now)
        inp.machine_id inp.now).2 m).getD []) ++ _ = _
    rw [hlook1 m]
    dsimp only
    by_cases hm : m = inp.machine_id
    · rw [if_pos hm, if_pos hm, List.filter_append]
      congr 1
      refine (List.filter_eq_self.2 ?_).symm
      intro a ha
      rw [List.eq_of_mem_replicate ha]
      rw [decide_eq_true_iff]
      linarith
    · rw [if_neg hm, if_neg hm, List.append_nil]

theorem windowCount_append (T : ℚ) (l1 l2 : List ℚ) :
    windowCount T (l1 ++ l2) = windowCount T l1 + windowCount T l2 := by
  unfold windowCount
  rw [List.filter_append, List.length_append]

theorem windowCount_replicate_le (T : ℚ) (k : ℕ) (x : ℚ) :
    windowCount T (List.replicate k x) ≤ k := by
  unfold windowCount
  exact le_trans (List.length_filter_le _ _) (by simp)

theorem windowCount_replicate_out (T : ℚ) (k : ℕ) (x : ℚ)
    (h : ¬ (T < x ∧ x ≤ T + 60)) : windowCount T (List.replicate k x) = 0 := by
  unfold windowCount
  induction k with
  | zero => rfl
  | succ n ih =>
      rw [List.replicate_succ, List.filter_cons, if_neg (by simpa using h)]
      exact ih

theorem runCalls_window_aux (inputs : List CallInput) :
    ∀ (st : ManagerState) (log : String → List ℚ) (tprev : ℚ),
      RecentInv st log tprev →
      (∀ m t, t ∈ log m → t ≤ tprev) →
      (∀ i ∈ inputs, tprev ≤ i.now) →
      List.Pairwise (fun a b => a ≤ b) (inputs.map CallInput.now) →
      (∀ m T, windowCount T (log m) ≤ Config.MAX_ALERTS_PER_MACHINE_PER_MINUTE + 2) →
      ∀ m T, windowCount T (log m ++ creationTimes m (runCalls st inputs).2) ≤
        Config.MAX_ALERTS_PER_MACHINE_PER_MINUTE + 2 := by
  induction inputs with
  | nil =>
      intro st log tprev _ _ _ _ hbase m T
      simpa [runCalls, creationTimes] using hbase m T
  | cons i rest ih =>
      intro st log tprev hinv hlogle hfut hpw hbase m T
      have hle : tprev ≤ i.now := hfut i (by simp)
      obtain ⟨hinv2, hk3, hkgate⟩ := checkAndCreate_step st i log tprev hinv hle
      have hpw2 : List.Pairwise (fun a b => a ≤ b) (rest.map CallInput.now) := by
        rw [List.map_cons, List.pairwise_cons] at hpw
        exact hpw.2
      have hhd : ∀ j ∈ rest, i.now ≤ j.now := by
        rw [List.map_cons, List.pairwise_cons] at hpw
        intro j hj
        exact hpw.1 j.now (List.mem_map.2 ⟨j, hj, rfl⟩)
      have hlogle2 : ∀ m2 t, t ∈ (fun m2 => if m2 = i.machine_id then
          log m2 ++ List.replicate (checkAndCreateAlerts st i).1.length i.now
          else log m2) m2 → t ≤ i.now := by
        intro m2 t ht
        dsimp only at ht
        by_cases hm2 : m2 = i.machine_id
        · rw [if_pos hm2] at ht
          rcases List.mem_append.1 ht with h1 | h2
          · exact le_trans (hlogle m2 t h1) hle
          · rw [List.eq_of_mem_replicate h2]
        · rw [if_neg hm2] at ht
          exact le_trans (hlogle m2 t ht) hle
      have hbase2 : ∀ m2 T2, windowCount T2 ((fun m2 => if m2 = i.machine_id then
          log m2 ++ List.replicate (checkAndCreateAlerts st i).1.length i.now
          else log m2) m2) ≤ Config.MAX_ALERTS_PER_MACHINE_PER_MINUTE + 2 := by
        intro m2 T2
        dsimp only
        by_cases hm2 : m2 = i.machine_id
        · rw [if_pos hm2, windowCount_append]
          by_cases hwin : T2 < i.now ∧ i.now ≤ T2 + 60
          · by_cases hkz : (checkAndCreateAlerts st i).1.length = 0
            · rw [hkz]
              have h0 : windowCount T2 (List.replicate 0 i.now) = 0 := rfl
              rw [h0]
              simpa using hbase m2 T2
            · have hgate := hkgate (Nat.pos_of_ne_zero hkz)
              have hold : windowCount T2 (log m2) ≤
                  ((log i.machine_id).filter
                    (fun t => decide (i.now - 60 < t))).length := by
                rw [hm2]
                unfold windowCount
                apply length_filter_mono
                intro x hx hp
                rw [decide_eq_true_iff] at hp ⊢
                obtain ⟨hT, hT60⟩ := hp
                obtain ⟨hwin1, hwin2⟩ := hwin
                linarith
              have hrep : windowCount T2 (List.replicate
                  (checkAndCreateAlerts st i).1.length i.now) ≤
                  (checkAndCreateAlerts st i).1.length :=
                windowCount_replicate_le _ _ _
              have hmax : Config.MAX_ALERTS_PER_MACHINE_PER_MINUTE = 3 := rfl
              omega
          · rw [windowCount_replicate_out T2 _ i.now hwin]
            simpa using hbase m2 T2
        · rw [if_neg hm2]
          exact hbase m2 T2
      have hrec := ih (checkAndCreateAlerts st i).2
        (fun m2 => if m2 = i.machine_id then
          log m2 ++ List.replicate (checkAndCreateAlerts st i).1.length i.now else log m2)
        i.now hinv2 hlogle2 hhd hpw2 hbase2 m T
      have hrun : (runCalls st (i :: rest)).2 =
          (i, (checkAndCreateAlerts st i).1.length) ::
            (runCalls (checkAndCreateAlerts st i).2 rest).2 := rfl
      have hct : creationTimes m ((i, (checkAndCreateAlerts st i).1.length) ::
          (runCalls (checkAndCreateAlerts st i).2 rest).2) =
          (if i.machine_id = m then
            List.replicate (checkAndCreateAlerts st i).1.length i.now else []) ++
            creationTimes m (runCalls (checkAndCreateAlerts st i).2 rest).2 := rfl
      rw [hrun, hct, ← List.append_assoc]
      have hfold : log m ++ (if i.machine_id = m then
          List.replicate (checkAndCreateAlerts st i).1.length i.now else []) =
          (if m = i.machine_id then
            log m ++ List.replicate (checkAndCreateAlerts st i).1.length i.now
          else log m) := by
        by_cases hm : m = i.machine_id
        · rw [if_pos hm, if_pos hm.symm]
        · rw [if_neg hm, if_neg (fun h => hm h.symm), List.append_nil]
      rw [hfold]
      exact hrec

def c3Sensors : SensorData := { vibration_x := some 2, temperature := some 90 }

def c3Call (t : ℚ) (rul health : ℚ) (s : SensorData) (i1 i2 : String) : CallInput :=
  { now := t, machine_id := "M-001", sensor_data := s, rul_hours := rul,
    health_score := health, is_anomaly := false, anomaly_score := 0,
    idRul := i1, idHealth := i2 }

/-- A monotone 8-call trace for one machine: four warm-up calls fill the
evaluation windows, warning alerts on RUL and health are created at `t = 62`,
then the values cross the critical triggers and both critical alerts are
created at `t = 94`. -/
def c3Trace : List CallInput :=
  [ c3Call 0 29 35 {} "R0" "H0",
    c3Call 1 28 34 {} "R1" "H1",
    c3Call 2 27 33 {} "R2" "H2",
    c3Call 3 26 32 {} "R3" "H3",
    c3Call 62 25 31 {} "R4" "H4",
    c3Call 63 20 25 c3Sensors "R5" "H5",
    c3Call 64 19 24 c3Sensors "R6" "H6",
    c3Call 94 18 23 c3Sensors "R7" "H7" ]

set_option maxHeartbeats 4000000 in
set_option maxRecDepth 8000 in
/-- C3 counterexample: along the monotone trace `c3Trace` the machine gets two
alerts at `t = 62` (warning RUL, low-health warning) and two more at `t = 94`
(critical RUL, low-health critical); the 60-second window `(61, 121]` then
holds 4 creations, exceeding `MAX_ALERTS_PER_MACHINE_PER_MINUTE = 3`.  The
rate check runs only once per call, before up to three creations, so the
per-60-second-window bound of 3 does not hold. -/
theorem rate_limit_window_counterexample :
    List.Chain' (fun a b => a ≤ b) (c3Trace.map CallInput.now) ∧
    Config.MAX_ALERTS_PER_MACHINE_PER_MINUTE <
      windowCount 61 (creationTimes "M-001" (runCalls initManagerState c3Trace).2) := by
  constructor
  · norm_num [c3Trace, c3Call]
  · norm_num +decide [c3Trace, c3Call, c3Sensors, runCalls, checkAndCreateAlerts,
      cleanupOldPendingAlerts, cleanupOldRateLimitData, checkRateLimit, pipelineBranches,
      rulBranch, healthBranch, anomalyBranch, feedWindows, wmAddSample, wmEvaluate,
      windowAddSample, windowEvaluate, windowPruned, windowMeanRisk, windowRiskTrend,
      windowPctAbove, pruneSamples, calculateTrend, listSum, calculateRiskScore, pyRound,
      roundHE, checkMultiSensorConfirmation, runProcessStep, processAlertWithPersistence,
      managerCreateAlertIfNew, checkDuplicateAlert, dbCreateAlert, openCount, isOpenState,
      alookup, aupsert, aerase, PendingAlert.update, PendingAlert.isPersistent,
      persistenceWindow, evaluationWindowConfig, initManagerState, creationTimes,
      windowCount, Config.MAX_ALERTS_PER_MACHINE_PER_MINUTE, Config.RUL_CRITICAL_TRIGGER,
      Config.RUL_WARNING_TRIGGER, Config.RUL_CRITICAL_CLEAR, Config.RUL_WARNING_CLEAR,
      Config.HEALTH_CRITICAL_TRIGGER, Config.HEALTH_WARNING_TRIGGER,
      Config.HEALTH_CRITICAL_CLEAR, Config.HEALTH_WARNING_CLEAR,
      Config.ANOMALY_CRITICAL_SCORE, Config.MULTI_SENSOR_REQUIRED_FOR_CRITICAL,
      Config.MIN_DEGRADED_SENSORS_FOR_CRITICAL, Config.MAX_RUL_HOURS]

/-- C3 (amended): along any `check_and_create_alerts` trace with nondecreasing
call timestamps, every half-open 60-second window `(T, T+60]` contains at most
`MAX_ALERTS_PER_MACHINE_PER_MINUTE + 2 = 5` alert creations per machine.  The
rate check runs only once per call, before up to three per-call creations, so
the per-window bound of the claim is `MAX + 2`, not `MAX`. -/
theorem rate_limit_window_bound (inputs : List CallInput)
    (hmono : List.Chain' (fun a b => a ≤ b) (inputs.map CallInput.now))
    (machine : String) (T : ℚ) :
    windowCount T (creationTimes machine (runCalls initManagerState inputs).2) ≤
      Config.MAX_ALERTS_PER_MACHINE_PER_MINUTE + 2 := by
  cases inputs with
  | nil => simp [runCalls, creationTimes, windowCount]
  | cons i rest =>
      have hpw : List.Pairwise (fun a b => a ≤ b) ((i :: rest).map CallInput.now) :=
        List.chain'_iff_pairwise.1 hmono
      have hinv : RecentInv initManagerState (fun _ => []) i.now := by
        constructor
        · simp [initManagerState]
        · intro m
          simp [alookup, initManagerState]
      have hlogle : ∀ (m : String) (t : ℚ), t ∈ (fun _ => ([] : List ℚ)) m →
          t ≤ i.now := by
        intro m t ht
        simp at ht
      have hfut : ∀ j ∈ i :: rest, i.now ≤ j.now := by
        intro j hj
        rcases List.mem_cons.1 hj with h | h
        · rw [h]
        · rw [List.map_cons, List.pairwise_cons] at hpw
          exact hpw.1 j.now (List.mem_map.2 ⟨j, h, rfl⟩)
      have hbase : ∀ (m : String) (T2 : ℚ), windowCount T2 ((fun _ => ([] : List ℚ)) m) ≤
          Config.MAX_ALERTS_PER_MACHINE_PER_MINUTE + 2 := by
        intro m T2
        simp [windowCount]
      have h := runCalls_window_aux (i :: rest) initManagerState (fun _ => []) i.now
        hinv hlogle hfut hpw hbase machine T
      simpa using h

def c3WitInput : CallInput :=
  { now := 0, machine_id := "M-001", sensor_data := {}, rul_hours := 100,
    health_score := 90, is_anomaly := false, anomaly_score := 0 }

theorem rate_limit_window_bound_witness :
    List.Chain' (fun a b => a ≤ b) ([c3WitInput].map CallInput.now) ∧
    windowCount 0 (creationTimes "M-001" (runCalls initManagerState [c3WitInput]).2) ≤
      Config.MAX_ALERTS_PER_MACHINE_PER_MINUTE + 2 :=
  ⟨by simp, rate_limit_window_bound [c3WitInput] (by simp) "M-001" 0⟩

theorem recordFailure_spec_witness :
    predEligible "M-001" 72000 c8Tracker.prediction_window_hours c8P2 ∧
    c8P2 ∈ c8Tracker.predictions.map Prod.snd ∧
    (10:ℚ) = predDiff 72000 c8P2 ∧
    (∀ q ∈ c8Tracker.predictions.map Prod.snd,
      predEligible "M-001" 72000 c8Tracker.prediction_window_hours q →
        (10:ℚ) ≤ predDiff 72000 q) ∧
    (∀ kr ∈ (recordFailure c8Tracker "M-001" "failure" 72000).2.predictions,
      kr.2.prediction_id = c8P2.prediction_id →
      kr.2.outcome = .TRUE_POSITIVE ∧ kr.2.lead_time_hours = some (10:ℚ)) ∧
    (∃ fid fe, (recordFailure c8Tracker "M-001" "failure" 72000).2.failures =
        c8Tracker.failures ++ [(fid, fe)] ∧ fe.was_predicted = true ∧
      fe.lead_time_hours = some (10:ℚ)) := by
  exact (recordFailure_spec c8Tracker "M-001" "failure" 72000).1 c8P2 10 (by
    norm_num [findMatchingPrediction, matchStep, c8Tracker, c8P1, c8P2])

end PM
